import Mathlib

/-!
Verification of the placeholder-resolution and content-assembly core of the
multi-source JSON template document generator (`generate_from_template.py`).

The embedding models:
* JSON values (`Json`) as loaded by `json.load` — numbers are modelled as
  integers (no claim concerns fractional numbers);
* `DataSourceManager.get` — dotted-path lookup across named sources;
* `DataSourceManager.resolve_placeholders` — the `re.sub` scan with pattern
  `\{([a-z_]+\.[a-zA-Z0-9_.]+)\}`;
* `TemplateDocumentGenerator._process_content_item` — the content-item
  dispatcher — and the table builders, as functions producing abstract
  document nodes, with `Except` marking the places where the Python code
  would raise on ill-typed data;
* the full generation walk `generate` over all phases.

The word-processing rendering collaborator (python-docx) is external per the
program's own design: appending a paragraph/bullet/table is modelled as
emitting an abstract `DocNode`; styling, page geometry and OOXML plumbing
carry no algorithmic content and are not modelled.
-/

namespace DocGen

/-- A JSON value as produced by `json.load`.  Numbers are modelled as
integers: the data files drive string-valued template fields, and no claim
depends on fractional numeric values. -/
inductive Json where
  | null
  | bool (b : Bool)
  | num (n : Int)
  | str (s : String)
  | arr (elems : List Json)
  | obj (members : List (String × Json))
deriving Inhabited

/-- Python truthiness (`bool(v)`) on JSON-representable values: `None`,
`False`, `0`, `""`, `[]`, `{}` are falsy, everything else truthy. -/
def Json.truthy : Json → Bool
  | .null => false
  | .bool b => b
  | .num n => !(n == 0)
  | .str s => !(s == "")
  | .arr es => !es.isEmpty
  | .obj ms => !ms.isEmpty

/-- First-match association lookup, modelling `dict` key lookup (JSON-loaded
dicts have unique keys, so first match is the match). -/
def assocFind (key : String) : List (String × Json) → Option Json
  | [] => none
  | (k, v) :: rest => if k = key then some v else assocFind key rest

/-- Python `d.get(key, default)` on a dict modelled as an association list. -/
def dictGet (kvs : List (String × Json)) (key : String) (default : Json) : Json :=
  match assocFind key kvs with
  | some v => v
  | none => default

/-- Split a character list on a separator, matching Python `str.split(sep)`:
the empty string yields `[""]`, separators at the ends yield empty pieces. -/
def splitOnChar (sep : Char) : List Char → List (List Char)
  | [] => [[]]
  | c :: rest =>
    let r := splitOnChar sep rest
    if c = sep then [] :: r
    else
      match r with
      | [] => [[c]]
      | g :: gs => (c :: g) :: gs

def isAsciiDigit (c : Char) : Bool := '0' ≤ c && c ≤ '9'

def digitsToNat (ds : List Char) : Nat :=
  ds.foldl (fun acc c => acc * 10 + (c.toNat - '0'.toNat)) 0

/-- Digit-group validity for Python `int()`: the digit string must match
`digit+('_' digit+)*` — underscores only between digits. -/
def validDigitGroups (gs : List (List Char)) : Bool :=
  !gs.isEmpty && gs.all (fun g => !g.isEmpty && g.all isAsciiDigit)

def pyIntDigits (cs : List Char) : Option Nat :=
  let gs := splitOnChar '_' cs
  if validDigitGroups gs then some (digitsToNat gs.flatten) else none

def pyIntCore (cs : List Char) : Option Int :=
  match cs with
  | '+' :: rest => (pyIntDigits rest).map Int.ofNat
  | '-' :: rest => (pyIntDigits rest).map (fun n => -(Int.ofNat n))
  | _ => (pyIntDigits cs).map Int.ofNat

def stripWs (cs : List Char) : List Char :=
  ((cs.dropWhile Char.isWhitespace).reverse.dropWhile Char.isWhitespace).reverse

/-- Models Python `int(s)` on a string: surrounding whitespace stripped, an
optional single sign, then ASCII digits with optional single underscores
between digit groups; anything else is a `ValueError` (`none`).  (Python also
accepts non-ASCII decimal digits; path segments are ASCII and no claim
depends on that.) -/
def pyInt (s : String) : Option Int := pyIntCore (stripWs s.data)

/-- Python list subscription `xs[i]`: non-negative indices from the front,
negative indices count from the end (`xs[-1]` is the last element), and an
out-of-range index is an `IndexError` (`none`). -/
def pyListGet (xs : List Json) (i : Int) : Option Json :=
  if 0 ≤ i then xs.get? i.toNat
  else if i.natAbs ≤ xs.length then xs.get? (xs.length - i.natAbs) else none

/-- The named data sources (`DataSourceManager.sources`): an association from
source name to loaded JSON value.  `_load_all_sources` stores `{}` for a
missing file, so in the running program every declared name is present. -/
abbrev Sources := List (String × Json)

/-- The `for part in parts[1:]` loop of `DataSourceManager.get`, including
the final `return value if value is not None else default`:
* a dict resolves a present key and otherwise falls to the `else` branch
  (return default);
* a list parses the segment with `int(...)` and indexes, returning the
  default on `ValueError`/`IndexError`;
* any other value (a scalar met before the path is exhausted) returns the
  default. -/
def getLoop (default : Json) : Json → List String → Json
  | v, [] =>
    match v with
    | .null => default
    | v => v
  | v, part :: rest =>
    match v with
    | .obj kvs =>
      match assocFind part kvs with
      | some w => getLoop default w rest
      | none => default
    | .arr xs =>
      match pyInt part with
      | some i =>
        match pyListGet xs i with
        | some w => getLoop default w rest
        | none => default
      | none => default
    | _ => default

/-- Models `DataSourceManager.get(path, default="")`: split the path on dots,
require at least two segments, select the source by the first segment, then
traverse with `getLoop`. -/
def get (sources : Sources) (path : String) (default : Json := .str "") : Json :=
  let parts := (splitOnChar '.' path.data).map String.mk
  if parts.length < 2 then default
  else
    match parts with
    | [] => default
    | p0 :: rest =>
      match assocFind p0 sources with
      | none => default
      | some v => getLoop default v rest

/-- The single-quote character, written by code point to keep string
rendering readable. -/
def squote : Char := Char.ofNat 39

/-- One character of a Python `repr` of a string, for the chosen quote:
backslashes and the quote character are escaped.  (Control-character escapes
are not modelled; no data in scope contains them and no claim depends on
them.) -/
def escChar (quote : Char) (c : Char) : String :=
  if c = '\\' then "\\\\"
  else if c = quote then String.mk ['\\', quote]
  else String.mk [c]

/-- Python `repr` of a string: single-quoted, switching to double quotes when
the string contains a single quote but no double quote. -/
def pyReprStr (s : String) : String :=
  let q : Char := if s.contains squote && !s.contains '"' then '"' else squote
  String.mk [q] ++ String.join (s.data.map (escChar q)) ++ String.mk [q]

mutual
/-- Python `repr` on JSON-representable values (used by `str` on containers):
`None`, `True`/`False`, decimal integers, quoted strings, and recursively
rendered lists and dicts. -/
def pyRepr : Json → String
  | .null => "None"
  | .bool true => "True"
  | .bool false => "False"
  | .num n => toString n
  | .str s => pyReprStr s
  | .arr es => "[" ++ pyReprArr es ++ "]"
  | .obj ms => "\x7b" ++ pyReprObj ms ++ "\x7d"

def pyReprArr : List Json → String
  | [] => ""
  | [e] => pyRepr e
  | e :: e2 :: es => pyRepr e ++ ", " ++ pyReprArr (e2 :: es)

def pyReprObj : List (String × Json) → String
  | [] => ""
  | [(k, v)] => pyReprStr k ++ ": " ++ pyRepr v
  | (k, v) :: m2 :: ms => pyReprStr k ++ ": " ++ pyRepr v ++ ", " ++ pyReprObj (m2 :: ms)
end

/-- Python `str(v)` on JSON-representable values: a string is itself,
anything else renders via `repr` (`str` and `repr` agree off strings). -/
def pyStr : Json → String
  | .str s => s
  | v => pyRepr v

/-! ### The placeholder scanner (`re.sub(r'\{([a-z_]+\.[a-zA-Z0-9_.]+)\}', ...)`)

The pattern's character classes exclude `.` (first class), `{` and `}` (both
classes), so the regex engine's greedy matching never backtracks
successfully: at a given start position a match exists iff the text is `{`,
a maximal nonempty run of `[a-z_]`, a `.`, a maximal nonempty run of
`[a-zA-Z0-9_.]`, then `}`.  `re.sub` scans left to right taking
non-overlapping leftmost matches. -/

/-- Class `[a-z_]` — the run before the first dot. -/
def isLowerUnd (c : Char) : Bool := ('a' ≤ c && c ≤ 'z') || c == '_'

/-- Class `[a-zA-Z0-9_.]` — the run after the first dot. -/
def isPathChar (c : Char) : Bool :=
  ('a' ≤ c && c ≤ 'z') || ('A' ≤ c && c ≤ 'Z') || ('0' ≤ c && c ≤ '9') || c == '_' || c == '.'

/-- Final step of the match: after the captured runs, the next character
must be the closing `}`. -/
def matchClose (r1 r2 : List Char) : List Char → Option (List Char × List Char)
  | [] => none
  | c1 :: rem => if c1 = '}' then some (r1 ++ '.' :: r2, rem) else none

/-- After `{[a-z_]+.`, take the maximal run of `[a-zA-Z0-9_.]` (required
nonempty) and look for the closing brace. -/
def matchAfterDot (r1 rest2 : List Char) : Option (List Char × List Char) :=
  if (rest2.takeWhile isPathChar).isEmpty then none
  else matchClose r1 (rest2.takeWhile isPathChar) (rest2.dropWhile isPathChar)

/-- After the first run, the next character must be the literal dot. -/
def matchDot (r1 : List Char) : List Char → Option (List Char × List Char)
  | [] => none
  | c0 :: rest2 => if c0 = '.' then matchAfterDot r1 rest2 else none

/-- Attempt the regex match at one position, on the text following an opening
`{`.  On success, return the captured group (`[a-z_]+\.[a-zA-Z0-9_.]+`) and
the remainder after the closing `}`.  Both character classes are taken as
maximal runs: since neither class contains `.`, `{` or `}`, the regex
engine's greedy matching with backtracking can never succeed any other way. -/
def tryMatch (cs : List Char) : Option (List Char × List Char) :=
  if (cs.takeWhile isLowerUnd).isEmpty then none
  else matchDot (cs.takeWhile isLowerUnd) (cs.dropWhile isLowerUnd)

/-- The replacement `replace_match` applies to one matched token: fetch the
path with the module default (empty string); a truthy value substitutes its
`str` form, a falsy value keeps the whole token text `{path}`. -/
def substToken (sources : Sources) (path : List Char) : List Char :=
  let value := get sources (String.mk path) (.str "")
  if value.truthy then (pyStr value).data else '{' :: path ++ ['}']

/-- The `re.sub` scan, fuelled by the input length (each step consumes at
least one character, so `fuel = cs.length` is exact): at each position, a
`{` starting a match emits the replacement and resumes after the token;
otherwise the character is copied. -/
def resolveFuel (sources : Sources) : Nat → List Char → List Char
  | 0, cs => cs
  | _ + 1, [] => []
  | fuel + 1, c :: rest =>
    if c = '{' then
      match tryMatch rest with
      | some (path, rem) => substToken sources path ++ resolveFuel sources fuel rem
      | none => c :: resolveFuel sources fuel rest
    else c :: resolveFuel sources fuel rest

/-- Models `DataSourceManager.resolve_placeholders`: non-string input is returned
unchanged; a string is rewritten by the `re.sub` scan. -/
def resolve_placeholders (sources : Sources) : Json → Json
  | .str s => .str (String.mk (resolveFuel sources s.data.length s.data))
  | v => v

/-! ### Spec-side statement of the dotted-path lookup (claim C1)

`specResolve`/`specGet` follow the claim's words: a later segment resolves a
present key of a mapping, or an integer index within range of a sequence
(Python range: negative indices count from the end); any failure, or a null
final value, yields the caller's default. -/

/-- Claim-side segment resolution: `some` iff every segment resolves. -/
def specResolve : Json → List String → Option Json
  | v, [] => some v
  | v, seg :: rest =>
    match v with
    | .obj kvs =>
      match assocFind seg kvs with
      | some w => specResolve w rest
      | none => none
    | .arr xs =>
      match (pyInt seg).bind (pyListGet xs) with
      | some w => specResolve w rest
      | none => none
    | _ => none

/-- Claim-side `get`: fewer than two segments give the default; otherwise the
first segment must name a loaded source, the rest must resolve, and a
non-null final value is returned verbatim — every failure gives the default. -/
def specGet (sources : Sources) (path : String) (default : Json) : Json :=
  match (splitOnChar '.' path.data).map String.mk with
  | p0 :: p1 :: rest =>
    match assocFind p0 sources with
    | some src =>
      match specResolve src (p1 :: rest) with
      | some v =>
        match v with
        | .null => default
        | v => v
      | none => default
    | none => default
  | _ => default

theorem getLoop_eq_specResolve (default : Json) :
    ∀ (segs : List String) (v : Json),
      getLoop default v segs =
        match specResolve v segs with
        | some w =>
          match w with
          | .null => default
          | w => w
        | none => default
  | [], v => by cases v <;> rfl
  | seg :: rest, v => by
    cases v with
    | obj kvs =>
      cases h : assocFind seg kvs with
      | none => simp [getLoop, specResolve, h]
      | some w => simpa [getLoop, specResolve, h] using getLoop_eq_specResolve default rest w
    | arr xs =>
      cases hi : pyInt seg with
      | none => simp [getLoop, specResolve, hi]
      | some i =>
        cases hx : pyListGet xs i with
        | none => simp [getLoop, specResolve, hi, hx]
        | some w => simpa [getLoop, specResolve, hi, hx] using getLoop_eq_specResolve default rest w
    | null => simp [getLoop, specResolve]
    | bool b => simp [getLoop, specResolve]
    | num n => simp [getLoop, specResolve]
    | str s => simp [getLoop, specResolve]

/-- Claim C1. For every dotted path and caller default, `get` is total (the
embedding is a function) and behaves exactly as specified: fewer than two
dot-separated segments give the default; otherwise the value reached by
resolving every later segment (mapping key, or integer sequence index in
range) is returned verbatim when non-null, and every failure — unknown
source, missing key, non-integer or out-of-range index, scalar met early, or
null final value — gives the default. -/
theorem c1_get_matches_spec (sources : Sources) (path : String) (default : Json) :
    get sources path default = specGet sources path default := by
  unfold get specGet
  simp only []
  cases hp : (splitOnChar '.' path.data).map String.mk with
  | nil => simp
  | cons p0 t =>
    cases t with
    | nil => simp
    | cons p1 rest =>
      have hlen : ¬ ((p0 :: p1 :: rest).length < 2) := by
        simp only [List.length_cons]
        omega
      simp only [if_neg hlen]
      cases h : assocFind p0 sources with
      | none => rfl
      | some v => simpa using getLoop_eq_specResolve default (p1 :: rest) v

/-- Claim C9. When traversal reaches a sequence and the next segment parses as
a negative integer whose magnitude does not exceed the sequence length, the
lookup loop resolves it to the element counted from the end (Python indexing)
and continues, rather than returning the default. -/
theorem c9_negative_index_resolves (default : Json) (xs : List Json) (s : String)
    (i : Int) (rest : List String) (v : Json)
    (hparse : pyInt s = some i) (hneg : i < 0) (hmag : i.natAbs ≤ xs.length)
    (hv : xs.get? (xs.length - i.natAbs) = some v) :
    getLoop default (.arr xs) (s :: rest) = getLoop default v rest := by
  have hpl : pyListGet xs i = some v := by
    unfold pyListGet
    rw [if_neg (by omega), if_pos hmag, hv]
  simp [getLoop, hparse, hpl]

/-- Witness for C9: in the two-element sequence `["a", "b"]` the segment
`"-1"` resolves to the final element `"b"`. -/
theorem c9_negative_index_resolves_witness :
    getLoop (.str "D") (.arr [.str "a", .str "b"]) ["-1"] = .str "b" :=
  (c9_negative_index_resolves (.str "D") [.str "a", .str "b"] "-1" (-1) [] (.str "b")
    rfl (by decide) (by decide) rfl).trans rfl

/-! ### Tokenization view of the scan

A decomposition of the input into literal characters and matched tokens,
used to state what `re.sub` substitutes (claims C2–C4). -/

/-- One piece of the scanned input: a literal character passed through, or a
matched placeholder token holding its captured path. -/
inductive Piece where
  | lit (c : Char)
  | tok (path : List Char)
deriving DecidableEq

/-- The raw text a piece stands for in the input: a token `p` stands for
the text between and including its braces. -/
def Piece.raw : Piece → List Char
  | .lit c => [c]
  | .tok p => '{' :: p ++ ['}']

/-- The output text of a piece: literals unchanged, tokens via the
replacement rule. -/
def Piece.render (sources : Sources) : Piece → List Char
  | .lit c => [c]
  | .tok p => substToken sources p

/-- The same scan as `resolveFuel`, recording pieces instead of emitting
replacement text. -/
def tokenizeFuel : Nat → List Char → List Piece
  | 0, cs => cs.map .lit
  | _ + 1, [] => []
  | fuel + 1, c :: rest =>
    if c = '{' then
      match tryMatch rest with
      | some (path, rem) => .tok path :: tokenizeFuel fuel rem
      | none => .lit c :: tokenizeFuel fuel rest
    else .lit c :: tokenizeFuel fuel rest

/-- The piece decomposition of an input. -/
def tokenizePieces (cs : List Char) : List Piece := tokenizeFuel cs.length cs

/-- The exact shape of a captured path: a nonempty maximal run of `[a-z_]`,
the first dot, then a nonempty run of `[a-zA-Z0-9_.]` — the deterministic
reading of `[a-z_]+\.[a-zA-Z0-9_.]+`. -/
def shapedPathB (p : List Char) : Bool :=
  match p.dropWhile isLowerUnd with
  | c0 :: r2 =>
    decide (c0 = '.') && !(p.takeWhile isLowerUnd).isEmpty && !r2.isEmpty && r2.all isPathChar
  | _ => false

/-- Does the text contain a placeholder match at any position? -/
def containsToken : List Char → Bool
  | [] => false
  | c :: rest => (decide (c = '{') && (tryMatch rest).isSome) || containsToken rest

theorem takeWhile_append_stop (P : Char → Bool) :
    ∀ (a : List Char) (c : Char) (b : List Char),
      (∀ x ∈ a, P x = true) → P c = false →
      (a ++ c :: b).takeWhile P = a ∧ (a ++ c :: b).dropWhile P = c :: b
  | [], c, b, _, hc => by simp [List.takeWhile_cons, List.dropWhile_cons, hc]
  | x :: a, c, b, ha, hc => by
    have hx : P x = true := ha x (List.mem_cons_self x a)
    have ih := takeWhile_append_stop P a c b (fun y hy => ha y (List.mem_cons_of_mem _ hy)) hc
    simp [List.takeWhile_cons, List.dropWhile_cons, hx, ih.1, ih.2]

/-- A successful match certifies its shape: the consumed text is exactly
`{`, the captured path of the canonical shape, `}`. -/
theorem tryMatch_sound {cs p rem} (h : tryMatch cs = some (p, rem)) :
    shapedPathB p = true ∧ cs = p ++ '}' :: rem := by
  unfold tryMatch at h
  by_cases h1 : (cs.takeWhile isLowerUnd).isEmpty
  · rw [if_pos h1] at h
    exact absurd h (by simp)
  · rw [if_neg h1] at h
    cases hd : cs.dropWhile isLowerUnd with
    | nil => rw [hd] at h; exact absurd h (by simp [matchDot])
    | cons c0 rest2 =>
      rw [hd] at h
      by_cases hc0 : c0 = '.'
      · subst hc0
        rw [show matchDot (cs.takeWhile isLowerUnd) ('.' :: rest2) =
            matchAfterDot (cs.takeWhile isLowerUnd) rest2 by simp [matchDot]] at h
        unfold matchAfterDot at h
        by_cases h2 : (rest2.takeWhile isPathChar).isEmpty
        · rw [if_pos h2] at h
          exact absurd h (by simp)
        · rw [if_neg h2] at h
          cases he : rest2.dropWhile isPathChar with
          | nil => rw [he] at h; exact absurd h (by simp [matchClose])
          | cons c1 rem' =>
            rw [he] at h
            by_cases hc1 : c1 = '}'
            · subst hc1
              rw [show matchClose (cs.takeWhile isLowerUnd) (rest2.takeWhile isPathChar)
                  ('}' :: rem') =
                  some (cs.takeWhile isLowerUnd ++ '.' :: rest2.takeWhile isPathChar, rem')
                  by simp [matchClose]] at h
              simp only [Option.some.injEq, Prod.mk.injEq] at h
              obtain ⟨hp, hrem⟩ := h
              subst hrem
              have hstop := takeWhile_append_stop isLowerUnd (cs.takeWhile isLowerUnd) '.'
                (rest2.takeWhile isPathChar)
                (fun y hy => List.mem_takeWhile_imp hy) (by decide)
              have h1' : (cs.takeWhile isLowerUnd).isEmpty = false := by
                revert h1
                cases (cs.takeWhile isLowerUnd).isEmpty <;> simp
              have h2' : (rest2.takeWhile isPathChar).isEmpty = false := by
                revert h2
                cases (rest2.takeWhile isPathChar).isEmpty <;> simp
              constructor
              · rw [← hp]
                unfold shapedPathB
                rw [hstop.2, hstop.1]
                simp only [decide_True, h1', h2', Bool.not_false, Bool.true_and,
                  Bool.and_eq_true, List.all_eq_true]
                exact fun y hy => List.mem_takeWhile_imp hy
              · have hcs : cs = cs.takeWhile isLowerUnd ++ '.' :: rest2 := by
                  conv_lhs => rw [← List.takeWhile_append_dropWhile (p := isLowerUnd) (l := cs)]
                  rw [hd]
                have hrest2 : rest2 = rest2.takeWhile isPathChar ++ '}' :: rem' := by
                  conv_lhs => rw [← List.takeWhile_append_dropWhile (p := isPathChar) (l := rest2)]
                  rw [he]
                rw [← hp]
                conv_lhs => rw [hcs, hrest2]
                simp
            · rw [show matchClose (cs.takeWhile isLowerUnd) (rest2.takeWhile isPathChar)
                  (c1 :: rem') = none by simp [matchClose, hc1]] at h
              exact absurd h (by simp)
      · rw [show matchDot (cs.takeWhile isLowerUnd) (c0 :: rest2) = none
            by simp [matchDot, hc0]] at h
        exact absurd h (by simp)

/-- Conversely, text in the canonical shape is matched, capturing exactly
the shaped path. -/
theorem tryMatch_complete {p rem} (hsh : shapedPathB p = true) :
    tryMatch (p ++ '}' :: rem) = some (p, rem) := by
  unfold shapedPathB at hsh
  cases hd : p.dropWhile isLowerUnd with
  | nil => rw [hd] at hsh; exact absurd hsh (by simp)
  | cons c0 r2 =>
    rw [hd] at hsh
    simp only [Bool.and_eq_true, decide_eq_true_eq, Bool.not_eq_true',
      List.all_eq_true] at hsh
    obtain ⟨⟨⟨hc0, h1⟩, h2⟩, hall⟩ := hsh
    subst hc0
    have hp : p = p.takeWhile isLowerUnd ++ '.' :: r2 := by
      conv_lhs => rw [← List.takeWhile_append_dropWhile (p := isLowerUnd) (l := p)]
      rw [hd]
    have hs1 := takeWhile_append_stop isLowerUnd (p.takeWhile isLowerUnd) '.' (r2 ++ '}' :: rem)
      (fun y hy => List.mem_takeWhile_imp hy) (by decide)
    have hs2 := takeWhile_append_stop isPathChar r2 '}' rem hall (by decide)
    have hfull : p ++ '}' :: rem = p.takeWhile isLowerUnd ++ '.' :: (r2 ++ '}' :: rem) := by
      conv_lhs => rw [hp]
      simp
    unfold tryMatch
    rw [hfull, hs1.1, hs1.2]
    rw [if_neg (by simp [h1])]
    rw [show matchDot (p.takeWhile isLowerUnd) ('.' :: (r2 ++ '}' :: rem)) =
        matchAfterDot (p.takeWhile isLowerUnd) (r2 ++ '}' :: rem) by simp [matchDot]]
    unfold matchAfterDot
    rw [hs2.1, hs2.2]
    rw [if_neg (by simp [h2])]
    rw [show matchClose (p.takeWhile isLowerUnd) r2 ('}' :: rem) =
        some (p.takeWhile isLowerUnd ++ '.' :: r2, rem) by simp [matchClose]]
    rw [← hp]

/-- A piece is either a literal or a token whose captured path has the
canonical shape. -/
def Piece.wellShaped : Piece → Bool
  | .lit _ => true
  | .tok p => shapedPathB p

theorem flatMap_map_lit_render (sources : Sources) :
    ∀ cs : List Char, (cs.map Piece.lit).flatMap (Piece.render sources) = cs
  | [] => rfl
  | c :: rest => by
    simp [Piece.render, flatMap_map_lit_render sources rest]

theorem flatMap_map_lit_raw :
    ∀ cs : List Char, (cs.map Piece.lit).flatMap Piece.raw = cs
  | [] => rfl
  | c :: rest => by
    simp [Piece.raw, flatMap_map_lit_raw rest]

/-- The scan's output is the piece decomposition rendered piecewise. -/
theorem resolveFuel_eq_render (sources : Sources) :
    ∀ (fuel : Nat) (cs : List Char),
      resolveFuel sources fuel cs = (tokenizeFuel fuel cs).flatMap (Piece.render sources)
  | 0, cs => (flatMap_map_lit_render sources cs).symm
  | fuel + 1, [] => rfl
  | fuel + 1, c :: rest => by
    by_cases hc : c = '{'
    · subst hc
      cases hm : tryMatch rest with
      | none =>
        simp [resolveFuel, tokenizeFuel, hm, Piece.render,
          resolveFuel_eq_render sources fuel rest]
      | some pr =>
        obtain ⟨path, rem⟩ := pr
        simp [resolveFuel, tokenizeFuel, hm, Piece.render,
          resolveFuel_eq_render sources fuel rem]
    · simp [resolveFuel, tokenizeFuel, hc, Piece.render,
        resolveFuel_eq_render sources fuel rest]

/-- The decomposition covers the input exactly: concatenating the raw text
of the pieces gives back the input (so matches are non-overlapping and
everything between them is passed through). -/
theorem tokenizeFuel_flatMap_raw :
    ∀ (fuel : Nat) (cs : List Char), (tokenizeFuel fuel cs).flatMap Piece.raw = cs
  | 0, cs => flatMap_map_lit_raw cs
  | fuel + 1, [] => rfl
  | fuel + 1, c :: rest => by
    by_cases hc : c = '{'
    · subst hc
      cases hm : tryMatch rest with
      | none =>
        simp [tokenizeFuel, hm, Piece.raw, tokenizeFuel_flatMap_raw fuel rest]
      | some pr =>
        obtain ⟨path, rem⟩ := pr
        have hs := tryMatch_sound hm
        conv_rhs => rw [hs.2]
        simp [tokenizeFuel, hm, Piece.raw, tokenizeFuel_flatMap_raw fuel rem]
    · simp [tokenizeFuel, hc, Piece.raw, tokenizeFuel_flatMap_raw fuel rest]

/-- Every token piece the scan produces has the canonical shape: nothing of
any other shape is ever treated as a placeholder. -/
theorem tokenizeFuel_wellShaped :
    ∀ (fuel : Nat) (cs : List Char), (tokenizeFuel fuel cs).all Piece.wellShaped = true
  | 0, cs => by
    simp only [tokenizeFuel, List.all_eq_true]
    intro x hx
    obtain ⟨c, _, rfl⟩ := List.mem_map.mp hx
    rfl
  | fuel + 1, [] => rfl
  | fuel + 1, c :: rest => by
    by_cases hc : c = '{'
    · subst hc
      cases hm : tryMatch rest with
      | none =>
        simp [tokenizeFuel, hm, Piece.wellShaped, tokenizeFuel_wellShaped fuel rest]
      | some pr =>
        obtain ⟨path, rem⟩ := pr
        have hs := tryMatch_sound hm
        simp [tokenizeFuel, hm, Piece.wellShaped, hs.1, tokenizeFuel_wellShaped fuel rem]
    · simp [tokenizeFuel, hc, Piece.wellShaped, tokenizeFuel_wellShaped fuel rest]

/-- A text with no match anywhere is passed through unchanged by the scan. -/
theorem resolveFuel_no_token (sources : Sources) :
    ∀ (fuel : Nat) (cs : List Char),
      containsToken cs = false → resolveFuel sources fuel cs = cs
  | 0, cs, _ => rfl
  | _ + 1, [], _ => rfl
  | fuel + 1, c :: rest, h => by
    rw [containsToken, Bool.or_eq_false_iff] at h
    by_cases hc : c = '{'
    · have hnone : tryMatch rest = none := by
        have := h.1
        rw [hc] at this
        simp only [decide_True, Bool.true_and] at this
        exact Option.not_isSome_iff_eq_none.mp (by rw [this]; exact Bool.false_ne_true)
      simp [resolveFuel, hc, hnone, resolveFuel_no_token sources fuel rest h.2]
    · simp [resolveFuel, hc, resolveFuel_no_token sources fuel rest h.2]

/-- A match exists at some position iff the text has a substring of the
placeholder shape `{` `[a-z_]+` `.` `[a-zA-Z0-9_.]+` `}`. -/
theorem containsToken_iff_exists :
    ∀ cs : List Char,
      containsToken cs = true ↔
        ∃ pre p rem, cs = pre ++ '{' :: (p ++ '}' :: rem) ∧ shapedPathB p = true := by
  intro cs
  induction cs with
  | nil =>
    constructor
    · intro h
      simp [containsToken] at h
    · rintro ⟨pre, p, rem, hcs, -⟩
      exact absurd hcs (by simp)
  | cons c rest ih =>
    rw [containsToken, Bool.or_eq_true]
    constructor
    · rintro (hl | hr)
      · rw [Bool.and_eq_true, decide_eq_true_eq] at hl
        obtain ⟨hc, hsome⟩ := hl
        subst hc
        obtain ⟨⟨p, rem⟩, hm⟩ := Option.isSome_iff_exists.mp hsome
        have hs := tryMatch_sound hm
        exact ⟨[], p, rem, by rw [hs.2]; rfl, hs.1⟩
      · obtain ⟨pre, p, rem, hcs, hsh⟩ := ih.mp hr
        exact ⟨c :: pre, p, rem, by rw [hcs]; rfl, hsh⟩
    · rintro ⟨pre, p, rem, hcs, hsh⟩
      cases pre with
      | nil =>
        left
        simp only [List.nil_append] at hcs
        obtain ⟨hc, hrest⟩ := List.cons.inj hcs
        subst hc
        rw [Bool.and_eq_true, decide_eq_true_eq]
        refine ⟨rfl, ?_⟩
        rw [hrest, tryMatch_complete hsh]
        rfl
      | cons c' pre' =>
        right
        obtain ⟨-, hrest⟩ := List.cons.inj hcs
        exact ih.mpr ⟨pre', p, rem, hrest, hsh⟩

/-- Claim C2. For every string input, `resolve_placeholders` is the piecewise
rewriting of the input's token decomposition: text outside matched tokens is
copied, and each matched token `{path}` is replaced by the string form of
`get path ""` when that value is truthy, and kept as its literal token text
when the value is falsy (empty string, zero, empty container, or the
default). -/
theorem c2_falsy_preserves_token (sources : Sources) (s : String) :
    resolve_placeholders sources (.str s) =
      .str (String.mk ((tokenizePieces s.data).flatMap (fun pc =>
        match pc with
        | .lit c => [c]
        | .tok p =>
          if (get sources (String.mk p) (.str "")).truthy then
            (pyStr (get sources (String.mk p) (.str ""))).data
          else '{' :: p ++ ['}']))) := by
  rw [show resolve_placeholders sources (.str s) =
      .str (String.mk (resolveFuel sources s.data.length s.data)) from rfl]
  unfold tokenizePieces
  rw [resolveFuel_eq_render]
  rfl

/-- Claim C3. `resolve_placeholders` is the identity on every non-string
input, and the identity on every string containing no substring of the
placeholder shape; in particular it is idempotent on such inputs. -/
theorem c3_identity_without_tokens (sources : Sources) (v : Json) :
    ((∀ s, v ≠ .str s) → resolve_placeholders sources v = v) ∧
    (∀ s, v = .str s →
      (¬ ∃ pre p rem, s.data = pre ++ '{' :: (p ++ '}' :: rem) ∧ shapedPathB p = true) →
      resolve_placeholders sources v = v ∧
      resolve_placeholders sources (resolve_placeholders sources v) =
        resolve_placeholders sources v) := by
  constructor
  · intro hns
    cases v with
    | str s => exact absurd rfl (hns s)
    | null => rfl
    | bool b => rfl
    | num n => rfl
    | arr es => rfl
    | obj ms => rfl
  · rintro s rfl hno
    have hct : containsToken s.data = false := by
      cases hb : containsToken s.data with
      | false => rfl
      | true => exact absurd ((containsToken_iff_exists s.data).mp hb) hno
    have hid : resolve_placeholders sources (.str s) = .str s := by
      rw [show resolve_placeholders sources (.str s) =
          .str (String.mk (resolveFuel sources s.data.length s.data)) from rfl,
        resolveFuel_no_token sources s.data.length s.data hct]
    exact ⟨hid, by rw [hid, hid]⟩

/-- Witness for C3: concrete inputs — a number is returned unchanged, and a
string with no placeholder-shaped substring is returned unchanged. -/
theorem c3_identity_without_tokens_witness :
    resolve_placeholders [] (.num 3) = .num 3 ∧
    resolve_placeholders [] (.str "Hello, world") = .str "Hello, world" :=
  ⟨(c3_identity_without_tokens [] (.num 3)).1 (fun s h => Json.noConfusion h),
   ((c3_identity_without_tokens [] (.str "Hello, world")).2 "Hello, world" rfl
     (fun hex => absurd ((containsToken_iff_exists _).mpr hex) (by decide))).1⟩

/-- Claim C4. The scan substitutes exactly the non-overlapping substrings of
the placeholder shape: the piece decomposition concatenates back to the
input, every token piece has the exact shape (`{`, `[a-z_]+`, `.`,
`[a-zA-Z0-9_.]+`, `}`), the output is the piecewise rendering (literals
untouched), a position matches precisely when the shape is present there,
and adjacent tokens with no separating text are each matched. -/
theorem c4_exact_nonoverlapping_tokens :
    (∀ cs : List Char, (tokenizePieces cs).flatMap Piece.raw = cs) ∧
    (∀ cs : List Char, (tokenizePieces cs).all Piece.wellShaped = true) ∧
    (∀ (sources : Sources) (s : String),
      resolve_placeholders sources (.str s) =
        .str (String.mk ((tokenizePieces s.data).flatMap (Piece.render sources)))) ∧
    (∀ (cs p rem : List Char),
      tryMatch cs = some (p, rem) ↔ (shapedPathB p = true ∧ cs = p ++ '}' :: rem)) ∧
    tokenizePieces ("\x7ba.b\x7d\x7bc.d\x7d".data) =
      [.tok ['a', '.', 'b'], .tok ['c', '.', 'd']] := by
  refine ⟨fun cs => tokenizeFuel_flatMap_raw cs.length cs,
    fun cs => tokenizeFuel_wellShaped cs.length cs,
    fun sources s => by
      rw [show resolve_placeholders sources (.str s) =
          .str (String.mk (resolveFuel sources s.data.length s.data)) from rfl]
      unfold tokenizePieces
      rw [resolveFuel_eq_render],
    fun cs p rem => ⟨fun h => tryMatch_sound h, fun h => by rw [h.2]; exact tryMatch_complete h.1⟩,
    by decide⟩

/-! ### Document nodes and the fallible Python primitives

The generation walk appends abstract nodes to the rendering collaborator.
Operations that can raise in Python on ill-typed data (`.get` on a
non-dict, iterating a non-iterable, hashing a container, `.split` on a
non-string) are modelled in `Except`, so "the walk never raises" is a
provable statement. -/

/-- One appended document node.  Styling (fonts, indents, alignment) is the
rendering collaborator's concern and is not modelled. -/
inductive DocNode where
  | emptyPara
  | pageBreak
  | sectionBreak
  | para (text : Json)
  | heading1 (text : Json)
  | heading2 (text : Json)
  | bullet (text : Json)
  | table (columns : List String) (rows : List (List String))
deriving Inhabited

/-- Python `v == "lit"` for a string literal: only an equal string compares
equal; every other JSON value is unequal. -/
def Json.eqStr : Json → String → Bool
  | .str s, t => s == t
  | _, _ => false

def isObjB : Json → Bool
  | .obj _ => true
  | _ => false

/-- Total companion of a `.get` on a value known to be a dict: the default
on a non-dict (where Python would have raised). -/
def objGet (v : Json) (key : String) (default : Json) : Json :=
  match v with
  | .obj kvs => dictGet kvs key default
  | _ => default

/-- Does a dict value have the key?  (`false` on non-dicts.) -/
def objHasKey (v : Json) (key : String) : Bool :=
  match v with
  | .obj kvs => (assocFind key kvs).isSome
  | _ => false

/-- Python `v.get(key, default)`: raises `AttributeError` unless `v` is a
dict. -/
def pyDictGet (v : Json) (key : String) (default : Json) : Except String Json :=
  match v with
  | .obj kvs => .ok (dictGet kvs key default)
  | _ => .error "AttributeError: get on non-dict"

/-- Python iteration `for x in v`: lists yield their elements, dicts their
keys, strings their characters; other values raise `TypeError`. -/
def pyIter (v : Json) : Except String (List Json) :=
  match v with
  | .arr xs => .ok xs
  | .obj kvs => .ok (kvs.map (fun kv => .str kv.1))
  | .str s => .ok (s.data.map (fun c => .str (String.mk [c])))
  | _ => .error "TypeError: not iterable"

/-- Python `path.split('.')` needs a string receiver: `AttributeError` otherwise. -/
def jStrOrRaise (v : Json) : Except String String :=
  match v with
  | .str s => .ok s
  | _ => .error "AttributeError: split on non-string"

/-- Models `self.data.sources.get(name, \x7b\x7d)` — the source table itself is a real
dict, so this lookup is total. -/
def sourcesGet (sources : Sources) (name : String) : Json :=
  dictGet sources name (.obj [])

/-- Models the `_create_table` cell text: `str(cell_value) if cell_value else ""`. -/
def cellText (v : Json) : String := if v.truthy then pyStr v else ""

/-- Models `_create_table`: a header row of column names and one styled text row
per data row. -/
def create_table (columns : List String) (rows : List (List Json)) : DocNode :=
  .table columns (rows.map (fun r => r.map cellText))

/-- The `for key in keys: if key in data: add_bullet(data[key])` loop of the
`bullet_list` mapping case: unhashable keys (lists/dicts) raise `TypeError`,
keys absent from the mapping are skipped. -/
def bulletKeys (kvs : List (String × Json)) : List Json → Except String (List DocNode)
  | [] => .ok []
  | key :: rest =>
    match key with
    | .arr _ => .error "TypeError: unhashable key"
    | .obj _ => .error "TypeError: unhashable key"
    | .str s =>
      match assocFind s kvs with
      | some v => do
        let tail ← bulletKeys kvs rest
        pure (.bullet v :: tail)
      | none => bulletKeys kvs rest
    | _ => bulletKeys kvs rest

/-- Models `_add_pension_arrangements_table`: fixed five-column schema; the SJP row
from `cfr`, the Scottish Widows row from `cfr` with the Proposed Action from
`user_input.part1_objectives` falling back to the literal `"Transfer"`, the
Aviva row from `cfr`/`illustration` with Proposed Action falling back to the
literal `"None"`. -/
def add_pension_arrangements_table (sources : Sources) : Except String DocNode := do
  let columns := ["Provider Type of Plan / Plan Number", "Current Value", "Transfer Value",
    "Ongoing Contribution", "Proposed Action"]
  let cfr ← pyDictGet (sourcesGet sources "cfr") "pension_arrangements" (.obj [])
  let user_input ← pyDictGet (sourcesGet sources "user_input") "part1_objectives" (.obj [])
  let illustration ← pyDictGet (sourcesGet sources "illustration") "aviva_plan" (.obj [])
  let sjp ← pyDictGet cfr "sjp_retirement_account" (.obj [])
  let row1 := [← pyDictGet sjp "provider_plan" (.str ""),
    ← pyDictGet sjp "current_value" (.str ""),
    ← pyDictGet sjp "transfer_value" (.str ""),
    ← pyDictGet sjp "ongoing_contribution" (.str ""),
    ← pyDictGet sjp "proposed_action" (.str "")]
  let sw ← pyDictGet cfr "scottish_widows" (.obj [])
  let row2 := [← pyDictGet sw "provider_plan" (.str ""),
    ← pyDictGet sw "current_value" (.str ""),
    ← pyDictGet sw "transfer_value" (.str ""),
    ← pyDictGet sw "ongoing_contribution" (.str ""),
    ← pyDictGet user_input "scottish_widows_proposed_action" (.str "Transfer")]
  let aviva ← pyDictGet cfr "aviva" (.obj [])
  let row3 := [← pyDictGet aviva "provider_plan" (.str ""),
    ← pyDictGet illustration "current_value" (.str ""),
    ← pyDictGet illustration "transfer_value" (.str ""),
    ← pyDictGet illustration "ongoing_contribution" (.str ""),
    ← pyDictGet user_input "aviva_proposed_action" (.str "None")]
  pure (create_table columns [row1, row2, row3])

/-- Models `_add_recommendation_table`: fixed five-column schema, one row; the
Transfer/Redirection and Indexation cells are the literals `"Transfer"` and
`"None"`, and Regular Contribution falls back to the literal `"None"` when
`user_input.part2_recommendation` lacks `regular_contribution`. -/
def add_recommendation_table (sources : Sources) : Except String DocNode := do
  let columns := ["Source", "Transfer/Redirection", "Lump Sum Amount", "Regular Contribution",
    "Indexation"]
  let cfr ← pyDictGet (sourcesGet sources "cfr") "part2_recommendation" (.obj [])
  let user_input ← pyDictGet (sourcesGet sources "user_input") "part2_recommendation" (.obj [])
  let row := [← pyDictGet cfr "source_plan" (.str ""),
    .str "Transfer",
    ← pyDictGet cfr "lump_sum_amount" (.str ""),
    ← pyDictGet user_input "regular_contribution" (.str "None"),
    .str "None"]
  pure (create_table columns [row])

/-- Models `TemplateDocumentGenerator._process_content_item`: dispatch on the
item's `type` field (defaulting to `"paragraph"`), producing the appended
nodes; items of any unrecognized type produce nothing. -/
def process_content_item (sources : Sources) (item : List (String × Json)) :
    Except String (List DocNode) := do
  let item_type := dictGet item "type" (.str "paragraph")
  if item_type.eqStr "paragraph" then
    let text := dictGet item "text" (.str "")
    pure [.emptyPara, .para (resolve_placeholders sources text)]
  else if item_type.eqStr "heading2" then
    let text := dictGet item "text" (.str "")
    pure [.emptyPara, .heading2 (resolve_placeholders sources text)]
  else if item_type.eqStr "bullet_list" then
    let source := dictGet item "source" (.str "")
    if source.truthy then
      let path ← jStrOrRaise source
      let data := get sources path (.str "")
      match data with
      | .arr xs => pure (.emptyPara :: xs.map .bullet)
      | .obj kvs =>
        let keysJ := dictGet item "keys" (.arr (kvs.map (fun kv => .str kv.1)))
        let keys ← pyIter keysJ
        let bullets ← bulletKeys kvs keys
        pure (.emptyPara :: bullets)
      | _ => pure [.emptyPara]
    else
      pure [.emptyPara]
  else if item_type.eqStr "table" then
    let table_id := dictGet item "table_id" (.str "")
    if table_id.eqStr "pension_arrangements" then do
      let t ← add_pension_arrangements_table sources
      pure [.emptyPara, t]
    else if table_id.eqStr "recommendation_table" then do
      let t ← add_recommendation_table sources
      pure [.emptyPara, t]
    else
      pure [.emptyPara]
  else
    pure []

theorem exceptBind_ok {α β : Type} (a : α) (f : α → Except String β) :
    (Except.ok a >>= f) = f a := rfl

theorem exceptPure_eq {α : Type} (a : α) : (pure a : Except String α) = .ok a := rfl

theorem exceptBind_error {α β : Type} (e : String) (f : α → Except String β) :
    ((Except.error e : Except String α) >>= f) = .error e := rfl

theorem exceptMap_ok {α β : Type} (f : α → β) (a : α) :
    (f <$> (Except.ok a : Except String α)) = .ok (f a) := rfl

theorem exceptMap_error {α β : Type} (f : α → β) (e : String) :
    (f <$> (Except.error e : Except String α)) = .error e := rfl

theorem pyDictGet_ok_objGet {v : Json} (h : isObjB v = true) (key : String) (default : Json) :
    pyDictGet v key default = .ok (objGet v key default) := by
  cases v <;> simp_all [pyDictGet, objGet, isObjB]

theorem objGet_default_of_not_has {v : Json} {key : String} (default : Json)
    (hobj : isObjB v = true) (h : objHasKey v key = false) :
    objGet v key default = default := by
  cases v with
  | obj kvs =>
    simp only [objHasKey] at h
    simp only [objGet, dictGet, Option.not_isSome_iff_eq_none.mp (by rw [h]; exact Bool.false_ne_true)]
  | null => rfl
  | bool b => rfl
  | num n => rfl
  | str s => rfl
  | arr es => rfl

theorem bulletKeys_strings (kvs : List (String × Json)) :
    ∀ ts : List String,
      bulletKeys kvs (ts.map .str) =
        .ok (ts.filterMap (fun t => (assocFind t kvs).map DocNode.bullet))
  | [] => rfl
  | t :: ts => by
    cases h : assocFind t kvs with
    | none =>
      simp [bulletKeys, h, bulletKeys_strings kvs ts]
    | some v =>
      simp [bulletKeys, h, bulletKeys_strings kvs ts, exceptBind_ok, exceptPure_eq]

theorem bulletKeys_natural (kvs : List (String × Json)) :
    bulletKeys kvs (kvs.map (fun kv => .str kv.1)) =
      .ok ((kvs.map Prod.fst).filterMap (fun t => (assocFind t kvs).map DocNode.bullet)) := by
  have h : kvs.map (fun kv => Json.str kv.1) = (kvs.map Prod.fst).map .str := by
    rw [List.map_map]
    rfl
  rw [h, bulletKeys_strings]

theorem exists_map_str {ks : List Json} (h : ∀ k ∈ ks, ∃ t, k = .str t) :
    ∃ ts : List String, ks = ts.map .str := by
  induction ks with
  | nil => exact ⟨[], rfl⟩
  | cons k rest ih =>
    obtain ⟨t, rfl⟩ := h k (by simp)
    obtain ⟨ts, rfl⟩ := ih (fun k hk => h k (by simp [hk]))
    exact ⟨t :: ts, rfl⟩

/-- The `bullet_list` branch of the dispatcher, characterized: with the
`type` field `"bullet_list"` and a nonempty string `source`, the appended
nodes are determined by the fetched data. -/
theorem process_content_item_bullet (sources : Sources) (item : List (String × Json)) (s : String)
    (htype : dictGet item "type" (.str "paragraph") = .str "bullet_list")
    (hsrc : dictGet item "source" (.str "") = .str s)
    (hne : s ≠ "") :
    process_content_item sources item =
      match get sources s (.str "") with
      | .arr xs => .ok (.emptyPara :: xs.map DocNode.bullet)
      | .obj kvs =>
        (match pyIter (dictGet item "keys" (.arr (kvs.map (fun kv => .str kv.1)))) with
         | .ok keys =>
           (match bulletKeys kvs keys with
            | .ok bullets => .ok (.emptyPara :: bullets)
            | .error e => .error e)
         | .error e => .error e)
      | _ => .ok [.emptyPara] := by
  have ht : (Json.str s).truthy = true := by
    simp only [Json.truthy, Bool.not_eq_true', beq_eq_false_iff_ne, ne_eq]
    exact hne
  unfold process_content_item
  rw [htype, hsrc]
  simp only [show (Json.str "bullet_list").eqStr "paragraph" = false from rfl,
    show (Json.str "bullet_list").eqStr "heading2" = false from rfl,
    show (Json.str "bullet_list").eqStr "bullet_list" = true from rfl,
    Bool.false_eq_true, if_false, if_true, ht,
    show jStrOrRaise (.str s) = .ok s from rfl, exceptBind_ok]
  cases hget : get sources s (.str "") with
  | arr xs => rfl
  | obj kvs =>
    cases hit : pyIter (dictGet item "keys" (.arr (kvs.map (fun kv => .str kv.1)))) with
    | ok keys =>
      cases hbk : bulletKeys kvs keys with
      | ok bullets =>
        simp [hit, hbk, exceptBind_ok, exceptBind_error, exceptPure_eq, exceptMap_ok,
          exceptMap_error]
      | error e =>
        simp [hit, hbk, exceptBind_ok, exceptBind_error, exceptPure_eq, exceptMap_ok,
          exceptMap_error]
    | error e => simp [hit, exceptBind_ok, exceptBind_error, exceptMap_error]
  | null => rfl
  | bool b => rfl
  | num n => rfl
  | str t => rfl

/-- Claim C5. For a `bullet_list` content item with a non-empty string source
path: a sequence result appends exactly one bullet per element in sequence
order; a mapping result appends one bullet per key — in the item's
explicitly supplied key order when a `keys` list of strings is given, in the
mapping's natural key order otherwise — skipping keys absent from the
mapping; any other result appends no bullets. -/
theorem c5_bullet_list_elements (sources : Sources) (item : List (String × Json)) (s : String)
    (htype : dictGet item "type" (.str "paragraph") = .str "bullet_list")
    (hsrc : dictGet item "source" (.str "") = .str s)
    (hne : s ≠ "")
    (hkeys : ∀ kvs, get sources s (.str "") = .obj kvs →
      match assocFind "keys" item with
      | none => True
      | some (.arr ks) => ∀ k ∈ ks, ∃ t, k = .str t
      | some _ => False) :
    match get sources s (.str "") with
    | .arr xs =>
      process_content_item sources item = .ok (.emptyPara :: xs.map DocNode.bullet)
    | .obj kvs =>
      process_content_item sources item = .ok (.emptyPara ::
        (match assocFind "keys" item with
         | some (.arr ks) =>
           ks.filterMap (fun k =>
             match k with
             | .str t => (assocFind t kvs).map DocNode.bullet
             | _ => none)
         | _ => (kvs.map Prod.fst).filterMap (fun t => (assocFind t kvs).map DocNode.bullet)))
    | _ => process_content_item sources item = .ok [.emptyPara] := by
  have hb := process_content_item_bullet sources item s htype hsrc hne
  cases hget : get sources s (.str "") with
  | arr xs =>
    rw [hget] at hb
    exact hb
  | obj kvs =>
    have hk := hkeys kvs hget
    rw [hget] at hb
    have hb' : process_content_item sources item =
        (match pyIter (dictGet item "keys" (.arr (kvs.map (fun kv => .str kv.1)))) with
         | .ok keys =>
           (match bulletKeys kvs keys with
            | .ok bullets => Except.ok (.emptyPara :: bullets)
            | .error e => Except.error e)
         | .error e => Except.error e) := hb
    cases hak : assocFind "keys" item with
    | none =>
      have hkeysJ : dictGet item "keys" (.arr (kvs.map (fun kv => .str kv.1))) =
          .arr (kvs.map (fun kv => .str kv.1)) := by
        unfold dictGet
        rw [hak]
      rw [hkeysJ] at hb'
      exact calc process_content_item sources item
          = match bulletKeys kvs (kvs.map (fun kv => Json.str kv.1)) with
            | .ok bullets => Except.ok (.emptyPara :: bullets)
            | .error e => Except.error e := hb'
        _ = .ok (.emptyPara ::
            (kvs.map Prod.fst).filterMap (fun t => (assocFind t kvs).map DocNode.bullet)) := by
          rw [bulletKeys_natural]
    | some k =>
      rw [hak] at hk
      cases k with
      | arr ks =>
        obtain ⟨ts, rfl⟩ := exists_map_str hk
        have hkeysJ : dictGet item "keys" (.arr (kvs.map (fun kv => .str kv.1))) =
            .arr (ts.map .str) := by
          unfold dictGet
          rw [hak]
        rw [hkeysJ] at hb'
        have hmain : process_content_item sources item =
            .ok (.emptyPara :: ts.filterMap (fun t => (assocFind t kvs).map DocNode.bullet)) :=
          calc process_content_item sources item
              = match bulletKeys kvs (ts.map .str) with
                | .ok bullets => Except.ok (.emptyPara :: bullets)
                | .error e => Except.error e := hb'
            _ = _ := by rw [bulletKeys_strings]
        show process_content_item sources item = .ok (.emptyPara ::
          (ts.map Json.str).filterMap (fun k =>
            match k with
            | .str t => (assocFind t kvs).map DocNode.bullet
            | _ => none))
        rw [List.filterMap_map]
        exact hmain
      | null => exact absurd hk (by simp)
      | bool b => exact absurd hk (by simp)
      | num n => exact absurd hk (by simp)
      | str t => exact absurd hk (by simp)
      | obj ms => exact absurd hk (by simp)
  | null =>
    rw [hget] at hb
    exact hb
  | bool b =>
    rw [hget] at hb
    exact hb
  | num n =>
    rw [hget] at hb
    exact hb
  | str t =>
    rw [hget] at hb
    exact hb

/-- Witness for C5: a `bullet_list` item over a mapping with one entry
appends exactly that entry's bullet after the leading empty paragraph. -/
theorem c5_bullet_list_elements_witness :
    process_content_item [("src", .obj [("inner", .obj [("a", .str "x")])])]
      [("type", .str "bullet_list"), ("source", .str "src.inner")] =
      .ok [.emptyPara, .bullet (.str "x")] :=
  c5_bullet_list_elements [("src", .obj [("inner", .obj [("a", .str "x")])])]
    [("type", .str "bullet_list"), ("source", .str "src.inner")] "src.inner"
    rfl rfl (by decide) (fun kvs _ => trivial)

/-- Claim C6. A content item whose `type` field holds any value other than
`"paragraph"`, `"heading2"`, `"bullet_list"` or `"table"` is silently
skipped: no node is appended and no error is raised. -/
theorem c6_unknown_type_silently_skipped (sources : Sources) (item : List (String × Json))
    (h1 : (dictGet item "type" (.str "paragraph")).eqStr "paragraph" = false)
    (h2 : (dictGet item "type" (.str "paragraph")).eqStr "heading2" = false)
    (h3 : (dictGet item "type" (.str "paragraph")).eqStr "bullet_list" = false)
    (h4 : (dictGet item "type" (.str "paragraph")).eqStr "table" = false) :
    process_content_item sources item = .ok [] := by
  unfold process_content_item
  simp [h1, h2, h3, h4, exceptPure_eq]

/-- Witness for C6: an item of type `"mystery"` produces no nodes and no
error. -/
theorem c6_unknown_type_silently_skipped_witness :
    process_content_item [] [("type", .str "mystery")] = .ok [] :=
  c6_unknown_type_silently_skipped [] [("type", .str "mystery")] rfl rfl rfl rfl

/-- Claim C10. A content item with no `type` field at all is treated as a
paragraph: its `text` field (defaulting to the empty string) has
placeholders resolved and is appended as a styled paragraph, rather than
being skipped like an unrecognized type value. -/
theorem c10_missing_type_is_paragraph (sources : Sources) (item : List (String × Json))
    (h : assocFind "type" item = none) :
    process_content_item sources item =
      .ok [.emptyPara, .para (resolve_placeholders sources (dictGet item "text" (.str "")))] := by
  unfold process_content_item
  have ht : dictGet item "type" (.str "paragraph") = .str "paragraph" := by
    unfold dictGet
    rw [h]
  rw [ht]
  simp [Json.eqStr, exceptPure_eq]

/-- Witness for C10: the empty item (no `type`, no `text`) appends one
styled empty paragraph after the leading empty paragraph. -/
theorem c10_missing_type_is_paragraph_witness :
    process_content_item [] [] = .ok [.emptyPara, .para (.str "")] :=
  c10_missing_type_is_paragraph [] [] rfl

/-- Claim C7. The table builders apply fixed literal fallbacks per column:
with the builders' source lookups well-typed and the relevant
`user_input.part1_objectives` / `user_input.part2_recommendation` keys
missing, the pension-arrangements table's Scottish Widows row ends in the
literal `"Transfer"` and its Aviva row in the literal `"None"`, and the
recommendation table's single row carries the literals `"Transfer"` (column
2), `"None"` (Regular Contribution fallback, column 4) and `"None"`
(Indexation, column 5). -/
theorem c7_table_literal_fallbacks (sources : Sources)
    (h0 : isObjB (sourcesGet sources "cfr") = true)
    (h1 : isObjB (sourcesGet sources "user_input") = true)
    (h2 : isObjB (sourcesGet sources "illustration") = true)
    (hpa : isObjB (objGet (sourcesGet sources "cfr") "pension_arrangements" (.obj [])) = true)
    (hsjp : isObjB (objGet (objGet (sourcesGet sources "cfr") "pension_arrangements" (.obj []))
      "sjp_retirement_account" (.obj [])) = true)
    (hsw : isObjB (objGet (objGet (sourcesGet sources "cfr") "pension_arrangements" (.obj []))
      "scottish_widows" (.obj [])) = true)
    (hav : isObjB (objGet (objGet (sourcesGet sources "cfr") "pension_arrangements" (.obj []))
      "aviva" (.obj [])) = true)
    (hpo : isObjB (objGet (sourcesGet sources "user_input") "part1_objectives" (.obj [])) = true)
    (hil : isObjB (objGet (sourcesGet sources "illustration") "aviva_plan" (.obj [])) = true)
    (hp2c : isObjB (objGet (sourcesGet sources "cfr") "part2_recommendation" (.obj [])) = true)
    (hp2u : isObjB (objGet (sourcesGet sources "user_input") "part2_recommendation" (.obj []))
      = true)
    (hm1 : objHasKey (objGet (sourcesGet sources "user_input") "part1_objectives" (.obj []))
      "scottish_widows_proposed_action" = false)
    (hm2 : objHasKey (objGet (sourcesGet sources "user_input") "part1_objectives" (.obj []))
      "aviva_proposed_action" = false)
    (hm3 : objHasKey (objGet (sourcesGet sources "user_input") "part2_recommendation" (.obj []))
      "regular_contribution" = false) :
    (∃ r1 a b c d e f g h,
      add_pension_arrangements_table sources =
        .ok (.table ["Provider Type of Plan / Plan Number", "Current Value", "Transfer Value",
          "Ongoing Contribution", "Proposed Action"]
          [r1, [a, b, c, d, "Transfer"], [e, f, g, h, "None"]])) ∧
    (∃ u v,
      add_recommendation_table sources =
        .ok (.table ["Source", "Transfer/Redirection", "Lump Sum Amount", "Regular Contribution",
          "Indexation"]
          [[u, "Transfer", v, "None", "None"]])) := by
  have e1 : objGet (objGet (sourcesGet sources "user_input") "part1_objectives" (.obj []))
      "scottish_widows_proposed_action" (.str "Transfer") = .str "Transfer" :=
    objGet_default_of_not_has _ hpo hm1
  have e2 : objGet (objGet (sourcesGet sources "user_input") "part1_objectives" (.obj []))
      "aviva_proposed_action" (.str "None") = .str "None" :=
    objGet_default_of_not_has _ hpo hm2
  have e3 : objGet (objGet (sourcesGet sources "user_input") "part2_recommendation" (.obj []))
      "regular_contribution" (.str "None") = .str "None" :=
    objGet_default_of_not_has _ hp2u hm3
  constructor
  · unfold add_pension_arrangements_table
    simp only [pyDictGet_ok_objGet h0, pyDictGet_ok_objGet h1, pyDictGet_ok_objGet h2,
      pyDictGet_ok_objGet hpa, pyDictGet_ok_objGet hsjp, pyDictGet_ok_objGet hsw,
      pyDictGet_ok_objGet hav, pyDictGet_ok_objGet hpo, pyDictGet_ok_objGet hil,
      exceptBind_ok, exceptPure_eq, e1, e2]
    simp only [create_table, List.map_cons, List.map_nil,
      show cellText (.str "Transfer") = "Transfer" from rfl,
      show cellText (.str "None") = "None" from rfl]
    exact ⟨_, _, _, _, _, _, _, _, _, rfl⟩
  · unfold add_recommendation_table
    simp only [pyDictGet_ok_objGet h0, pyDictGet_ok_objGet h1, pyDictGet_ok_objGet hp2c,
      pyDictGet_ok_objGet hp2u, exceptBind_ok, exceptPure_eq, e3]
    simp only [create_table, List.map_cons, List.map_nil,
      show cellText (.str "Transfer") = "Transfer" from rfl,
      show cellText (.str "None") = "None" from rfl]
    exact ⟨_, _, rfl⟩

/-- Witness for C7: with every source empty, both builders succeed and the
fallback columns carry their literal defaults. -/
theorem c7_table_literal_fallbacks_witness :
    (∃ r1 a b c d e f g h,
      add_pension_arrangements_table [] =
        .ok (.table ["Provider Type of Plan / Plan Number", "Current Value", "Transfer Value",
          "Ongoing Contribution", "Proposed Action"]
          [r1, [a, b, c, d, "Transfer"], [e, f, g, h, "None"]])) ∧
    (∃ u v,
      add_recommendation_table [] =
        .ok (.table ["Source", "Transfer/Redirection", "Lump Sum Amount", "Regular Contribution",
          "Indexation"]
          [[u, "Transfer", v, "None", "None"]])) :=
  c7_table_literal_fallbacks [] rfl rfl rfl rfl rfl rfl rfl rfl rfl rfl rfl rfl rfl rfl

/-! ### The remaining table builders and the full generation walk (claim C8) -/

def isArrB : Json → Bool
  | .arr _ => true
  | _ => false

/-- The elements of a value known to be a list (junk otherwise — only used
after `isArrB`). -/
def arrElems : Json → List Json
  | .arr xs => xs
  | _ => []

/-- Models `_add_employer_scheme_table`: one row from `user_input.employer_scheme`. -/
def add_employer_scheme_table (sources : Sources) : Except String DocNode := do
  let columns := ["Contribution Type", "Source",
    "Can the employer accept this type of contribution?", "Type of Employer Scheme"]
  let employer ← pyDictGet (sourcesGet sources "user_input") "employer_scheme" (.obj [])
  let row := [← pyDictGet employer "contribution_type" (.str ""),
    ← pyDictGet employer "source" (.str ""),
    ← pyDictGet employer "can_accept" (.str ""),
    ← pyDictGet employer "scheme_type" (.str "")]
  pure (create_table columns [row])

/-- Models `_add_transfer_impact_table`: one row from `cfr.part3_impact` and
`ceding_info.part3_transfer_details`. -/
def add_transfer_impact_table (sources : Sources) : Except String DocNode := do
  let columns := ["Provider Plan", "Transfer Value", "Charge on Transfer",
    "Protected Tax-Free Cash", "Guarantees", "Terminal Bonus"]
  let cfr ← pyDictGet (sourcesGet sources "cfr") "part3_impact" (.obj [])
  let ceding ← pyDictGet (sourcesGet sources "ceding_info") "part3_transfer_details" (.obj [])
  let row := [← pyDictGet cfr "provider_plan" (.str ""),
    ← pyDictGet cfr "transfer_value" (.str ""),
    ← pyDictGet ceding "charge_on_transfer" (.str ""),
    ← pyDictGet ceding "protected_tfc" (.str ""),
    ← pyDictGet ceding "guarantees" (.str ""),
    ← pyDictGet ceding "terminal_bonus" (.str "")]
  pure (create_table columns [row])

/-- Models `_add_outperformance_table`: one row; the Action cell is the literal
`"Transfer"`. -/
def add_outperformance_table (sources : Sources) : Except String DocNode := do
  let columns := ["Provider Plan", "Action", "Level of Outperformance Required",
    "Monetary Equivalent in First Year"]
  let cfr ← pyDictGet (sourcesGet sources "cfr") "part3_impact" (.obj [])
  let cyc0 ← pyDictGet (sourcesGet sources "cyc") "outperformance_table" (.obj [])
  let cyc ← pyDictGet cyc0 "scottish_widows" (.obj [])
  let row := [← pyDictGet cfr "provider_plan" (.str ""),
    .str "Transfer",
    ← pyDictGet cyc "level_of_outperformance" (.str ""),
    ← pyDictGet cyc "monetary_equivalent" (.str "")]
  pure (create_table columns [row])

/-- One row of the fund-selection table, from one fund entry. -/
def fundRow (fund : Json) : Except String (List Json) := do
  pure [← pyDictGet fund "category" (.str ""),
    ← pyDictGet fund "fund_selection" (.str ""),
    ← pyDictGet fund "fund_type" (.str ""),
    ← pyDictGet fund "risk_profile" (.str ""),
    ← pyDictGet fund "percentage" (.str "")]

/-- Models `_add_fund_selection_table`: one row per entry of
`user_input.fund_selection.table`. -/
def add_fund_selection_table (sources : Sources) : Except String DocNode := do
  let columns := ["Category", "Fund Selection", "Fund Type", "Risk Profile",
    "Percentage of investment"]
  let fs ← pyDictGet (sourcesGet sources "user_input") "fund_selection" (.obj [])
  let table ← pyDictGet fs "table" (.arr [])
  let funds ← pyIter table
  let rows ← funds.mapM fundRow
  pure (create_table columns rows)

/-- Models `_add_product_comparison_table`: the thirteen-column appendix table with
an SJP row full of literal cells and a Scottish Widows row from
`ceding_info`. -/
def add_product_comparison_table (sources : Sources) : Except String DocNode := do
  let columns := ["Provider Plan Name / Number", "Initial Advice Charge", "Ongoing Advice Charge",
    "Ongoing Product Charge", "Ongoing Fund Charge", "Annual Management Charge",
    "Early Withdrawal Charges", "Allocation Rate", "Total External Management Charge",
    "Plan Charge", "Number of Funds", "Maximum Number of Funds", "Any Guarantees Applicable"]
  let cyc0 ← pyDictGet (sourcesGet sources "cyc") "product_comparison" (.obj [])
  let cyc ← pyDictGet cyc0 "sjp_retirement_account" (.obj [])
  let user_input ← pyDictGet (sourcesGet sources "user_input") "product_comparison" (.obj [])
  let ceding ← pyDictGet (sourcesGet sources "ceding_info")
    "product_comparison_scottish_widows" (.obj [])
  let row1 := [Json.str "St. James\x27s Place Retirement Account",
    ← pyDictGet cyc "initial_advice_charge" (.str ""),
    ← pyDictGet cyc "ongoing_advice_charge" (.str ""),
    ← pyDictGet cyc "ongoing_product_charge" (.str ""),
    ← pyDictGet cyc "ongoing_fund_charge" (.str ""),
    .str "None", .str "None",
    ← pyDictGet user_input "allocation_rate" (.str ""),
    .str "-", .str "None", .str "43", .str "Unlimited", .str "None"]
  let row2 := [get sources "cfr.pension_arrangements.scottish_widows.provider_plan" (.str ""),
    ← pyDictGet ceding "initial_advice_charge" (.str ""),
    ← pyDictGet ceding "ongoing_advice_charge" (.str ""),
    ← pyDictGet ceding "ongoing_product_charge" (.str ""),
    ← pyDictGet ceding "ongoing_fund_charge" (.str ""),
    ← pyDictGet ceding "annual_management_charge" (.str ""),
    ← pyDictGet ceding "early_withdrawal_charges" (.str ""),
    ← pyDictGet ceding "allocation_rate" (.str ""),
    ← pyDictGet ceding "total_external_charge" (.str ""),
    ← pyDictGet ceding "plan_charge" (.str ""),
    ← pyDictGet ceding "number_of_funds" (.str ""),
    ← pyDictGet ceding "max_funds" (.str ""),
    ← pyDictGet ceding "guarantees" (.str "")]
  pure (create_table columns [row1, row2])

/-- A content item as it appears in a template list: `item.get` raises
unless the item is a dict. -/
def process_content_item_j (sources : Sources) (item : Json) : Except String (List DocNode) :=
  match item with
  | .obj kvs => process_content_item sources kvs
  | _ => .error "AttributeError: get on non-dict"

/-- Constant `DEFAULT_STYLES` from `style_helpers`, restricted to the `document`
entry that `_setup_document` reads (the other entries and the styling values
feed only the external rendering collaborator; the float `1.0` is modelled
as the integer `1`). -/
def DEFAULT_STYLES : Json :=
  .obj [("document", .obj [("font_family", .str "Poppins"), ("font_size", .num 10),
    ("font_color", .str "000000"), ("line_spacing", .num 1),
    ("line_spacing_rule", .str "SINGLE"), ("space_before", .num 0), ("space_after", .num 0),
    ("alignment", .str "LEFT")])]

/-- Models `_setup_document` (with the `styles` read from `__init__`): the page and
margin geometry and the Normal-style values go to the external collaborator;
what remains observable is the chain of `.get` calls, which raise on
non-dict intermediates.  No nodes are appended. -/
def setup_document (tpl : Json) : Except String (List DocNode) := do
  let pages ← pyDictGet tpl "pages" (.obj [])
  let letter ← pyDictGet pages "letter" (.obj [])
  let margins ← pyDictGet letter "margins" (.obj [])
  let _top ← pyDictGet margins "top" (.num 1)
  let _bottom ← pyDictGet margins "bottom" (.num 1)
  let _left ← pyDictGet margins "left" (.num 1)
  let _right ← pyDictGet margins "right" (.num 1)
  let styles ← pyDictGet tpl "styles" DEFAULT_STYLES
  let doc_style ← pyDictGet styles "document" (.obj [])
  let _ff ← pyDictGet doc_style "font_family" (.str "Poppins")
  let _fs ← pyDictGet doc_style "font_size" (.num 10)
  let _ls ← pyDictGet doc_style "line_spacing" (.num 1)
  pure []

/-- Models `_generate_letter`: the letter section, nodes in append order. -/
def generate_letter (tpl : Json) (sources : Sources) : Except String (List DocNode) := do
  let letter_template ← pyDictGet tpl "template" (.obj [])
  let letter0 ← pyDictGet letter_template "letter" (.obj [])
  let confidential ← pyDictGet letter0 "confidential" (.str "Private and Confidential")
  let recipient ← pyDictGet (sourcesGet sources "cfr") "recipient" (.obj [])
  let titleName ← pyDictGet recipient "title_and_name" (.str "")
  let a1 ← pyDictGet recipient "address_line_1" .null
  let a2 ← pyDictGet recipient "address_line_2" .null
  let a3 ← pyDictGet recipient "address_line_3" .null
  let a4 ← pyDictGet recipient "address_line_4" .null
  let a5 ← pyDictGet recipient "address_line_5" .null
  let addrNodes := ([a1, a2, a3, a4, a5].filter Json.truthy).map DocNode.para
  let date_text := get sources "user_input.letter_details.date" (.str "")
  let client_name := get sources "user_input.letter_details.client_first_name" (.str "")
  let intro ← pyDictGet letter_template "intro_paragraphs" (.arr [])
  let introList ← pyIter intro
  let parts_intro ← pyDictGet letter_template "parts_intro" (.str "")
  let parts_bullets ← pyDictGet letter_template "parts_bullets" (.arr [])
  let pbList ← pyIter parts_bullets
  let appendix_intro ← pyDictGet letter_template "appendix_intro" (.str "")
  let other_docs ← pyDictGet letter_template "other_documentation" (.obj [])
  let od_heading ← pyDictGet other_docs "heading" (.str "")
  let od_intro ← pyDictGet other_docs "intro" (.str "")
  let od_bullets ← pyDictGet other_docs "bullets" (.arr [])
  let odbList ← pyIter od_bullets
  let od_closing ← pyDictGet other_docs "closing" (.str "")
  let ongoing ← pyDictGet letter_template "ongoing_advice" (.obj [])
  let on_heading ← pyDictGet ongoing "heading" (.str "")
  let on_paras ← pyDictGet ongoing "paragraphs" (.arr [])
  let onList ← pyIter on_paras
  let next_steps ← pyDictGet letter_template "next_steps" (.obj [])
  let ns_heading ← pyDictGet next_steps "heading" (.str "")
  let ns_paras ← pyDictGet next_steps "paragraphs" (.arr [])
  let nsList ← pyIter ns_paras
  let valediction ← pyDictGet letter0 "valediction" (.str "Yours sincerely,")
  let adviser_name := get sources "user_input.closing.adviser_name" (.str "")
  let adviser_title := get sources "user_input.closing.adviser_title" (.str "")
  let closing_company ← pyDictGet letter0 "closing_company" (.str "")
  pure ([DocNode.para confidential, .para titleName] ++ addrNodes ++
    [.emptyPara, .para date_text,
     .para (.str ("Dear " ++ pyStr client_name ++ ",")), .emptyPara,
     .para (.str "RE: Retirement Planning"), .emptyPara] ++
    introList.flatMap (fun t => [DocNode.para (resolve_placeholders sources t), .emptyPara]) ++
    [.para parts_intro] ++ pbList.map DocNode.bullet ++
    [.emptyPara, .para appendix_intro, .emptyPara,
     .heading2 od_heading, .para od_intro] ++ odbList.map DocNode.bullet ++
    [.emptyPara, .para od_closing, .emptyPara, .heading2 on_heading] ++
    onList.flatMap (fun t => [DocNode.para (resolve_placeholders sources t), .emptyPara]) ++
    [.heading2 ns_heading] ++
    nsList.flatMap (fun t => [DocNode.para (resolve_placeholders sources t), .emptyPara]) ++
    [.para valediction, .emptyPara, .emptyPara,
     .para adviser_name, .para adviser_title, .para closing_company])

/-- One nested `o`-prefixed investment line of the Scottish Widows section
(the f-string of the investments loop). -/
def invRow (inv : Json) : Except String DocNode := do
  let fund_name ← pyDictGet inv "fund_name" (.str "")
  let value ← pyDictGet inv "value" (.str "")
  pure (DocNode.para (.str ("o   " ++ pyStr fund_name ++ "                 " ++ pyStr value)))

/-- Models `_generate_scottish_widows_details`: the plan-details section of Part 1. -/
def generate_scottish_widows_details (sources : Sources) : Except String (List DocNode) := do
  let plan_name := get sources "cfr.pension_arrangements.scottish_widows.provider_plan" (.str "")
  let ceding ← pyDictGet (sourcesGet sources "ceding_info") "scottish_widows_details" (.obj [])
  let plan_commenced ← pyDictGet ceding "plan_commenced" (.str "")
  let contribution_status ← pyDictGet ceding "contribution_status" (.str "")
  let last_contribution ← pyDictGet ceding "last_contribution" (.str "")
  let transfers_in ← pyDictGet ceding "transfers_in" (.str "")
  let bulk_transfer ← pyDictGet ceding "bulk_transfer" (.str "")
  let protected_tfc ← pyDictGet ceding "protected_tfc" (.str "")
  let investments ← pyDictGet ceding "investments" (.arr [])
  let invList ← pyIter investments
  let invNodes ← invList.mapM invRow
  let charges ← pyDictGet ceding "charges" (.obj [])
  let amc ← pyDictGet charges "annual_management_charge" (.str "")
  let fundCharge ← pyDictGet charges "fund_charge" (.str "")
  let additional_info ← pyDictGet ceding "additional_info" (.arr [])
  let aiList ← pyIter additional_info
  pure ([.emptyPara, .heading2 plan_name,
    .bullet plan_commenced, .bullet contribution_status, .bullet last_contribution,
    .bullet transfers_in, .bullet bulk_transfer, .bullet protected_tfc,
    .bullet (.str "Your plan is invested in as follows:")] ++ invNodes ++
    [.bullet (.str "The only charges applicable to the plan are:"),
     .para (.str ("o   Annual management charge                              " ++ pyStr amc)),
     .para (.str ("o   Fund charge                                           " ++ pyStr fundCharge))] ++
    aiList.map DocNode.bullet)

/-- Models `_generate_lsa_lsdba_section`: fixed regulatory prose plus the MPAA
statement from `user_input`; no operation here can raise. -/
def generate_lsa_lsdba_section (sources : Sources) : List DocNode :=
  [.emptyPara,
   .heading2 (.str "Lump Sum Allowance (LSA) and Lump Sum and Death Benefit Allowance (LSDBA)"),
   .emptyPara,
   .para (.str "The Lump Sum Allowance (LSA) is the maximum amount of tax-free lump sum which could be paid from your pensions during your lifetime."),
   .emptyPara,
   .para (.str "The Lump Sum and Death Benefit Allowance (LSDBA) is the maximum tax-free lump sum which can be paid from your pensions during your lifetime (but this is usually first limited by your LSA) and on your death if you die before age 75."),
   .emptyPara,
   .para (.str "When drawing pension benefits during your lifetime, the tax-free lump sum available is dependent on the value of your pension, as well as your remaining LSA and LSDBA at that point. Lump sums withdrawn over your remaining allowances will be subject to Income Tax."),
   .emptyPara,
   .para (.str "Your LSA is £268,275 and your LSDBA is £1.0731 million."),
   .emptyPara,
   .para (get sources "user_input.mpaa_statement" (.str ""))]

/-- Models `_generate_part1`: heading, content items, plan details, LSA section. -/
def generate_part1 (tpl : Json) (sources : Sources) : Except String (List DocNode) := do
  let part1 ← pyDictGet tpl "part1" (.obj [])
  let h1 ← pyDictGet part1 "heading1" (.str "Part 1 - Your Objectives, Needs and Circumstances")
  let h2 ← pyDictGet part1 "heading2" (.str "Your Immediate Objectives")
  let content ← pyDictGet part1 "content" (.arr [])
  let items ← pyIter content
  let nodess ← items.mapM (process_content_item_j sources)
  let sw ← generate_scottish_widows_details sources
  pure ([.pageBreak, .heading1 h1, .emptyPara, .heading2 h2] ++ nodess.flatten ++ sw ++
    generate_lsa_lsdba_section sources)

/-- Models `_generate_part2`: heading, content items, employer schemes, salary
sacrifice, Legacy Preservation Trust prose. -/
def generate_part2 (tpl : Json) (sources : Sources) : Except String (List DocNode) := do
  let part2 ← pyDictGet tpl "part2" (.obj [])
  let h1 ← pyDictGet part2 "heading1" (.str "Part 2 - My Recommendation")
  let h2 ← pyDictGet part2 "heading2" (.str "Recommended Actions")
  let content ← pyDictGet part2 "content" (.arr [])
  let items ← pyIter content
  let nodess ← items.mapM (process_content_item_j sources)
  let employer ← pyDictGet (sourcesGet sources "user_input") "employer_scheme" (.obj [])
  let cms ← pyDictGet employer "contribution_matching_status" (.str "")
  let tbl ← add_employer_scheme_table sources
  let cyc ← pyDictGet (sourcesGet sources "cyc") "employer_scheme_comparison" (.obj [])
  let esc ← pyDictGet cyc "employer_scheme_charge" (.str "")
  let sjpc ← pyDictGet cyc "sjp_charge" (.str "")
  let outp ← pyDictGet cyc "outperformance_required" (.str "")
  let mefy ← pyDictGet cyc "monetary_equivalent_first_year" (.str "")
  let reason ← pyDictGet employer "sjp_vs_employer_reason" (.str "")
  let salary_sacrifice := get sources "illustration.salary_sacrifice.description" (.str "")
  pure ([.pageBreak, .heading1 h1, .emptyPara, .heading2 h2] ++ nodess.flatten ++
    [.emptyPara, .heading2 (.str "Employer Schemes"),
     .para (.str ("Your employer offers you the benefit of contribution matching for your current scheme. " ++ pyStr cms)),
     .emptyPara, tbl, .emptyPara,
     .para (.str ("Your employer\x27s scheme has charges of " ++ pyStr esc ++
       " per annum compared to the charges on your St. James\x27s Place Retirement Account of " ++
       pyStr sjpc ++ " per annum. This means the recommended plan would need to grow by " ++
       pyStr outp ++ " more per annum, or " ++ pyStr mefy ++
       " more in the first year, than your employer\x27s scheme in order to match the fund you could have had if you had invested via your employer scheme.")),
     .emptyPara,
     .para (.str ("Taking into account my calculations, I have recommended you contribute to a St. James\x27s Place Retirement Account rather than your employer\x27s scheme because " ++ pyStr reason)),
     .emptyPara, .heading2 (.str "Salary Sacrifice"), .para salary_sacrifice,
     .emptyPara, .heading2 (.str "Use of the Legacy Preservation Trust"),
     .para (.str "I have recommended you set up a Legacy Preservation Trust, a provision which we offer as part of our standard service and at no additional cost to you. It is specifically designed to receive death benefits, including accrued pension funds, from most pension schemes. If used on death, the trust will protect your pension benefits for your beneficiaries and will prevent the value of the pension forming part of their individual estates for Inheritance Tax purposes."),
     .emptyPara,
     .para (.str "While you accepted my recommendation, you have not yet completed the necessary paperwork as you are still deciding on how to structure the Trust. I left the relevant paperwork with you, and you will look to complete this as soon as possible as you understand until this has been completed, the Trust will not be created."),
     .emptyPara,
     .para (.str "I have also recommended you complete an Expression of Wish form, which you have agreed to. An Expression of Wish form ensures that your wishes are considered prior to payment of your pension death benefits. Please provide your completed form as soon as you can, and I will update your record.")])

/-- Models `_generate_part3`: transfer impact, charges, outperformance,
disadvantages, special terms. -/
def generate_part3 (tpl : Json) (sources : Sources) : Except String (List DocNode) := do
  let part3 ← pyDictGet tpl "part3" (.obj [])
  let h1 ← pyDictGet part3 "heading1" (.str "Part 3 - Impact of Replacement")
  let h2 ← pyDictGet part3 "heading2" (.str "Pension Plans to be transferred")
  let tbl ← add_transfer_impact_table sources
  let plan_name := get sources "cfr.pension_arrangements.scottish_widows.provider_plan" (.str "")
  let spread_period := get sources "cyc.charges_spread_period" (.str "")
  let outTbl ← add_outperformance_table sources
  let ceding ← pyDictGet (sourcesGet sources "ceding_info") "disadvantages" (.obj [])
  let cycDis ← pyDictGet (sourcesGet sources "cyc") "disadvantages" (.obj [])
  let d1 ← pyDictGet ceding "higher_charges" (.str "Higher charges")
  let d2 ← pyDictGet cycDis "new_initial_advice_charge"
    (.str "A new Initial Advice Charge will be applied")
  let d3 ← pyDictGet ceding "fewer_funds" (.str "Fewer funds to invest in")
  let d4 ← pyDictGet ceding "loss_lifestyling" (.str "Loss of Lifestyling")
  let d5 ← pyDictGet ceding "loss_death_cover" (.str "Loss of accidental death cover")
  let special_terms ← pyDictGet (sourcesGet sources "cyc") "special_terms" (.obj [])
  let co ← pyDictGet special_terms "combined_outperformance" (.str "")
  let me ← pyDictGet special_terms "monetary_equivalent" (.str "")
  pure [.pageBreak, .heading1 h1, .emptyPara, .heading2 h2, tbl, .emptyPara, .para plan_name,
    .emptyPara, .heading2 (.str "Changes to Your Tax-Free Cash Entitlement"),
    .para (.str "There will be no change to your tax-free cash entitlement from the uncrystallised funds relating to the transfer of your plan from Scottish Widows."),
    .emptyPara, .heading2 (.str "The Impact of Charges on your Benefits"),
    .para (.str "Moving funds as recommended into a Retirement Account will usually mean there will be a change in the level of charges which you pay. As part of my recommendation, I have therefore considered the difference in charges between your existing arrangements and the Retirement Account and set out the results in the table below."),
    .emptyPara,
    .para (.str ("Our comparison includes the product charge, fund charge, ongoing advice charge and initial charge (as detailed in appendix). For our calculations, the initial charge has been spread over " ++ pyStr spread_period ++ ".")),
    .emptyPara,
    .para (.str "The outperformance shown below is the additional growth your Retirement Account needs to achieve to match these funds, based on the increase in charges. If this level of outperformance is not achieved, your fund and therefore the benefits it can pay, will be lower than if you had not transferred."),
    .emptyPara, outTbl,
    .emptyPara, .heading2 (.str "Potential Disadvantages of Replacing Your Existing Plan"),
    .para (.str "In addition to the above points the proposed Retirement Account has the following disadvantages:"),
    .bullet d1, .bullet d2, .bullet d3, .bullet d4, .bullet d5,
    .emptyPara, .heading2 (.str "Special terms"),
    .para (.str "Following the calculation of the impact of the difference in charges between the recommended St. James\x27s Place Retirement Account and your existing arrangements, I have arranged Special Terms to reduce the Initial Advice Charge payable on transfer to the St. James\x27s Place Retirement Account. These are reflected in the reduced charges shown on the Illustration that accompanies this report."),
    .emptyPara,
    .para (.str ("After applying these terms, the combined outperformance is " ++ pyStr co ++
      " per annum which is equivalent to " ++ pyStr me ++ " in the next twelve months.")),
    .emptyPara,
    .para (.str "You understand past performance is no guide to future performance and there is no guarantee St. James\x27s Place funds will outperform an existing provider. Having discussed this in detail, you felt there was a reasonable opportunity for sufficient growth to be achieved and you are willing to accept the risk it might not be.")]

/-- Models `_generate_part4`: attitude to risk and fund selection.  The two bullet
sources are guarded by `isinstance(..., list)` checks, so those lookups can
never raise. -/
def generate_part4 (tpl : Json) (sources : Sources) : Except String (List DocNode) := do
  let part4 ← pyDictGet tpl "part4" (.obj [])
  let h1 ← pyDictGet part4 "heading1" (.str "Part 4 - Your Attitude to Risk and fund selection")
  let investment_intro := get sources "cfr.client_profile.investment_knowledge_intro" (.str "")
  let investment_bullets := get sources "cfr.client_profile.investment_knowledge_bullets" (.str "")
  let capacity_intro := get sources "cfr.client_profile.capacity_for_loss_intro" (.str "")
  let capacity_bullets := get sources "cfr.client_profile.capacity_for_loss_bullets" (.str "")
  let emergency_fund := get sources "cfr.client_profile.emergency_fund" (.str "")
  let emergency_reason := get sources "user_input.client_profile.emergency_fund_reason" (.str "")
  let risk_profile := get sources "user_input.client_profile.risk_profile" (.str "")
  let fundTbl ← add_fund_selection_table sources
  let fund_reason := get sources "user_input.fund_selection.recommendation_reason" (.str "")
  let equity_content := get sources "illustration.fund_selection.overall_equity_content" (.str "")
  let additional_notes := get sources "user_input.fund_selection.additional_fund_notes" (.str "")
  pure ([.pageBreak, .heading1 h1, .emptyPara,
    .para (.str "We had a conversation about investment risk as part of our discussions. Some key factors we discussed were your objectives, your investment experience, the time horizon over which you are investing and your attitude to, and ability to withstand, investment losses."),
    .emptyPara,
    .para (.str "We also discussed the range of example portfolios and funds offered by St. James\x27s Place, and the importance of holding a diversified range of investments."),
    .emptyPara, .heading2 (.str "Your investment knowledge and experience"),
    .para (.str "When considering your level of investment knowledge and experience, a key factor is the extent to which your existing or previous investments have been exposed to market volatility."),
    .emptyPara, .para investment_intro] ++
    (match investment_bullets with
     | .arr xs => xs.map DocNode.bullet
     | _ => []) ++
    [.emptyPara, .heading2 (.str "Your capacity for loss"),
     .para (.str "Capacity for loss relates to your ability to withstand investment losses and cope financially should there be a market downturn either at the point you need to access your investment, or if investment returns are less favourable than expected. Considering your capacity for loss, in conjunction with your investment knowledge and experience, is particularly important when making investment decisions."),
     .emptyPara, .para capacity_intro] ++
    (match capacity_bullets with
     | .arr xs => xs.map DocNode.bullet
     | _ => []) ++
    [.emptyPara,
     .para (.str ("An emergency fund of " ++ pyStr emergency_fund ++
       " is held in accessible cash accounts.")),
     .emptyPara,
     .para (.str ("I believe that your emergency fund is sufficient for your needs because " ++
       pyStr emergency_reason)),
     .emptyPara, .heading2 (.str "Your Risk Profile"),
     .para (.str ("Taking into account all these factors, we agreed you are a " ++
       pyStr risk_profile ++
       " Risk investor on our risk spectrum. Investors in this category are willing to take a balanced approach to investment risk. Such investors would like the value of their money to keep pace with inflation and are prepared to invest over a minimum of five years. However, neither do they want to take too much investment risk. Therefore, any investment in this category will be invested, either with a more balanced weighting between equities, bonds and gilts, or a higher weighting to equities. This is to enable moderate growth over the longer term, compared to investment solely into cash, bonds or gilts. Such investors can accept moderate to significant falls in the value of their investment and also understand it is possible to lose some of their initial money (capital).")),
     .emptyPara,
     .para (.str "I recommended that you invest in a fund selection as follows:"),
     .emptyPara,
     .para (.str "Contribution: Transfer"),
     fundTbl,
     .emptyPara,
     .para fund_reason,
     .para equity_content,
     .emptyPara,
     .para additional_notes])

/-- Models `_generate_appendix_i`: background details — every dynamic value comes
through `get`, so nothing here can raise. -/
def generate_appendix_i (sources : Sources) : Except String (List DocNode) := do
  let debts := get sources "user_input.client_profile.debts" (.str "")
  let alternative_reason :=
    get sources "user_input.client_profile.alternative_not_recommended_reason" (.str "")
  let annual_income := get sources "cfr.client_profile.annual_income" (.str "")
  let tax_bracket := get sources "cfr.client_profile.tax_bracket" (.str "")
  let has_will := get sources "cfr.client_profile.has_will" (.str "")
  let investment_aim := get sources "user_input.client_profile.investment_aim" (.str "")
  let timeframe := get sources "illustration.investment_timeframe" (.str "")
  pure [.pageBreak,
    .heading1 (.str "Appendix i - Further details to the background of the recommendation made"),
    .emptyPara,
    .para (.str "This Appendix summarises further factual information which I learnt during our discussions and acts as a useful aid to explaining the reasons for my recommendations."),
    .emptyPara, .heading2 (.str "Liabilities"),
    .para (.str ("There were " ++ pyStr debts ++ " to consider as part of my recommendation")),
    .emptyPara, .heading2 (.str "Alternatives Available – Existing Provider(s)"),
    .para (.str "The plan being transferred could have been left as they are now, and an attempt made to resolve any concerns directly with the existing providers. This would avoid any increase in charges on transfer."),
    .emptyPara,
    .para (.str ("Having considered this option and the reasons for wanting to transfer, this was not recommended because " ++ pyStr alternative_reason)),
    .emptyPara, .heading2 (.str "Alternatives Available – Stakeholder Scheme"),
    .para (.str "The rules for a Stakeholder plan do not allow advice charges to be paid via the plan meaning these charges have to be paid separately from your taxed income. As a result of this, the overall cost difference is typically not material, depending on your fund selection. A recommendation for a St. James\x27s Place Retirement Account allows access to the St. James\x27s Place Approach to Investment Management at essentially no additional cost. A contribution into a Stakeholder plan has therefore not been considered."),
    .emptyPara, .heading2 (.str "Death Benefits"),
    .para (.str "On your death, your beneficiaries can take benefits from your pension fund as either; an income, a lump sum paid to them or paid to a trust, or a combination of these."),
    .emptyPara,
    .para (.str "If you die before age 75, your pension death benefits can usually be paid tax free, as long as benefits are taken within two years of the scheme being notified of your death, and any relevant lump sum payments are within your remaining Lump Sum and Death Benefit Allowance (LSDBA). Relevant lump sum payments over your LSDBA that are paid to a beneficiary will be subject to Income Tax payable at their highest marginal rate, and if paid to a discretionary trust, tax will be payable at 45%."),
    .emptyPara,
    .para (.str "If you die after you reach age 75, any benefits paid to your beneficiaries will be subject to Income Tax payable at their highest marginal rate. If benefits are paid to a discretionary trust, they will be subject to a 45% tax charge."),
    .emptyPara,
    .para (.str "The October 2024 Budget announced that from April 2027, on death, most pension funds will form part of the estate for Inheritance Tax purposes, regardless of whether the benefit is paid to an individual or trust. Legislation is currently being drafted, so it is subject to change. As part of our ongoing reviews, we will consider the impact on your estate and any appropriate action required."),
    .emptyPara, .heading2 (.str "Further Relevant Client Specific Information"),
    .para (.str ("You have an income of " ++ pyStr annual_income ++
      " per annum which falls into the " ++ pyStr tax_bracket ++ " tax bracket.")),
    .emptyPara,
    .para (.str (pyStr has_will ++
      ", so I recommended you seek legal advice to review your Will arrangements.")),
    .emptyPara,
    .para (.str "I recommend you seek legal advice to arrange a Power of Attorney to ensure someone you trust can manage your personal or financial affairs if you lose capacity."),
    .emptyPara, .heading2 (.str "Determining Your Attitude to Risk (ATR)"),
    .para (.str "We had a conversation about investment risk as part of our discussions. Some key factors we discussed were your objectives, your investment experience, the time horizon over which you are investing and your attitude to, and ability to withstand, investment losses."),
    .emptyPara,
    .para (.str ("You intend to use your investment to " ++ pyStr investment_aim ++ ".")),
    .emptyPara,
    .para (.str ("With this aim in mind, the timeframe for your investment into your St. James\x27s Place Retirement Account is " ++ pyStr timeframe))]

/-- Models `_generate_appendix`: the landscape product-comparison appendix. -/
def generate_appendix (tpl : Json) (sources : Sources) : Except String (List DocNode) := do
  let appendix ← pyDictGet tpl "appendix" (.obj [])
  let title ← pyDictGet appendix "title" (.str "Appendix ii - Product Comparison")
  let tbl ← add_product_comparison_table sources
  pure [.sectionBreak, .heading1 title, .emptyPara, tbl]

/-- Models `TemplateDocumentGenerator.generate`: the fixed linear sequence of
phases, concatenating their appended nodes.  Page-number fields and saving
the file belong to the rendering collaborator and file system. -/
def generate (tpl : Json) (sources : Sources) : Except String (List DocNode) := do
  let s ← setup_document tpl
  let l ← generate_letter tpl sources
  let p1 ← generate_part1 tpl sources
  let p2 ← generate_part2 tpl sources
  let p3 ← generate_part3 tpl sources
  let p4 ← generate_part4 tpl sources
  let ai ← generate_appendix_i sources
  let aii ← generate_appendix tpl sources
  pure (s ++ l ++ p1 ++ p2 ++ p3 ++ p4 ++ ai ++ aii)

/-! ### Shape of the loaded data (claim C8)

The walk never raises on *missing* data; a raise needs a present value of
the wrong type (a scalar where a dict is read, a non-string bullet-list
source, unhashable keys).  The predicates below say each value the walk
touches is absent or of the expected type; deleting keys, entries or whole
sources preserves them, and the all-empty data set satisfies them. -/

/-- Python-hashable JSON value (usable with `in` on a dict). -/
def hashableB : Json → Bool
  | .arr _ => false
  | .obj _ => false
  | _ => true

/-- An explicitly supplied `keys` value the dispatcher can iterate without
raising: a list of hashable values, a dict (iterates its string keys), or a
string (iterates its characters). -/
def keysOkB : Json → Bool
  | .arr ks => ks.all hashableB
  | .obj _ => true
  | .str _ => true
  | _ => false

/-- Shape of one template content item: a dict whose `source`, when truthy,
is a string, and whose `keys`, when present, is iterable with hashable
elements. -/
def itemOkB : Json → Bool
  | .obj kvs =>
    (!(dictGet kvs "source" (.str "")).truthy ||
      (match dictGet kvs "source" (.str "") with
       | .str _ => true
       | _ => false)) &&
    (match assocFind "keys" kvs with
     | none => true
     | some k => keysOkB k)
  | _ => false

/-- Shape of a section's `content`: a list of well-shaped items (the absent
default `[]` qualifies). -/
def contentOkB : Json → Bool
  | .arr items => items.all itemOkB
  | _ => false

/-- Shape of one template part: a dict whose `content` is well-shaped. -/
def sectionOkB (tpl : Json) (name : String) : Bool :=
  isObjB (objGet tpl name (.obj [])) &&
  contentOkB (objGet (objGet tpl name (.obj [])) "content" (.arr []))

/-- A list value all of whose elements are dicts (investment entries, fund
rows). -/
def objListOkB : Json → Bool
  | .arr xs => xs.all isObjB
  | _ => false

/-- Shape of the template structure: every value the walk reads off it is
absent or of the type the read requires. -/
def templateOkB (tpl : Json) : Bool :=
  isObjB tpl &&
  isObjB (objGet tpl "pages" (.obj [])) &&
  isObjB (objGet (objGet tpl "pages" (.obj [])) "letter" (.obj [])) &&
  isObjB (objGet (objGet (objGet tpl "pages" (.obj [])) "letter" (.obj [])) "margins" (.obj [])) &&
  isObjB (objGet tpl "styles" DEFAULT_STYLES) &&
  isObjB (objGet (objGet tpl "styles" DEFAULT_STYLES) "document" (.obj [])) &&
  isObjB (objGet tpl "template" (.obj [])) &&
  isObjB (objGet (objGet tpl "template" (.obj [])) "letter" (.obj [])) &&
  isArrB (objGet (objGet tpl "template" (.obj [])) "intro_paragraphs" (.arr [])) &&
  isArrB (objGet (objGet tpl "template" (.obj [])) "parts_bullets" (.arr [])) &&
  isObjB (objGet (objGet tpl "template" (.obj [])) "other_documentation" (.obj [])) &&
  isArrB (objGet (objGet (objGet tpl "template" (.obj [])) "other_documentation" (.obj []))
    "bullets" (.arr [])) &&
  isObjB (objGet (objGet tpl "template" (.obj [])) "ongoing_advice" (.obj [])) &&
  isArrB (objGet (objGet (objGet tpl "template" (.obj [])) "ongoing_advice" (.obj []))
    "paragraphs" (.arr [])) &&
  isObjB (objGet (objGet tpl "template" (.obj [])) "next_steps" (.obj [])) &&
  isArrB (objGet (objGet (objGet tpl "template" (.obj [])) "next_steps" (.obj []))
    "paragraphs" (.arr [])) &&
  sectionOkB tpl "part1" &&
  sectionOkB tpl "part2" &&
  isObjB (objGet tpl "part3" (.obj [])) &&
  isObjB (objGet tpl "part4" (.obj [])) &&
  isObjB (objGet tpl "appendix" (.obj []))

/-- Shape of the loaded sources: each of the five sources is a dict, and
every nested value the walk reads with `.get`/iteration is absent or of the
expected type.  All lookups going through `get` need no shape at all. -/
def sourcesOkB (sources : Sources) : Bool :=
  isObjB (sourcesGet sources "cfr") &&
  isObjB (sourcesGet sources "cyc") &&
  isObjB (sourcesGet sources "illustration") &&
  isObjB (sourcesGet sources "ceding_info") &&
  isObjB (sourcesGet sources "user_input") &&
  isObjB (objGet (sourcesGet sources "cfr") "recipient" (.obj [])) &&
  isObjB (objGet (sourcesGet sources "cfr") "pension_arrangements" (.obj [])) &&
  isObjB (objGet (objGet (sourcesGet sources "cfr") "pension_arrangements" (.obj []))
    "sjp_retirement_account" (.obj [])) &&
  isObjB (objGet (objGet (sourcesGet sources "cfr") "pension_arrangements" (.obj []))
    "scottish_widows" (.obj [])) &&
  isObjB (objGet (objGet (sourcesGet sources "cfr") "pension_arrangements" (.obj []))
    "aviva" (.obj [])) &&
  isObjB (objGet (sourcesGet sources "cfr") "part2_recommendation" (.obj [])) &&
  isObjB (objGet (sourcesGet sources "cfr") "part3_impact" (.obj [])) &&
  isObjB (objGet (sourcesGet sources "user_input") "part1_objectives" (.obj [])) &&
  isObjB (objGet (sourcesGet sources "user_input") "part2_recommendation" (.obj [])) &&
  isObjB (objGet (sourcesGet sources "user_input") "employer_scheme" (.obj [])) &&
  isObjB (objGet (sourcesGet sources "user_input") "product_comparison" (.obj [])) &&
  isObjB (objGet (sourcesGet sources "user_input") "fund_selection" (.obj [])) &&
  objListOkB (objGet (objGet (sourcesGet sources "user_input") "fund_selection" (.obj []))
    "table" (.arr [])) &&
  isObjB (objGet (sourcesGet sources "cyc") "employer_scheme_comparison" (.obj [])) &&
  isObjB (objGet (sourcesGet sources "cyc") "disadvantages" (.obj [])) &&
  isObjB (objGet (sourcesGet sources "cyc") "special_terms" (.obj [])) &&
  isObjB (objGet (sourcesGet sources "cyc") "product_comparison" (.obj [])) &&
  isObjB (objGet (objGet (sourcesGet sources "cyc") "product_comparison" (.obj []))
    "sjp_retirement_account" (.obj [])) &&
  isObjB (objGet (sourcesGet sources "cyc") "outperformance_table" (.obj [])) &&
  isObjB (objGet (objGet (sourcesGet sources "cyc") "outperformance_table" (.obj []))
    "scottish_widows" (.obj [])) &&
  isObjB (objGet (sourcesGet sources "ceding_info") "scottish_widows_details" (.obj [])) &&
  objListOkB (objGet (objGet (sourcesGet sources "ceding_info")
    "scottish_widows_details" (.obj [])) "investments" (.arr [])) &&
  isObjB (objGet (objGet (sourcesGet sources "ceding_info") "scottish_widows_details" (.obj []))
    "charges" (.obj [])) &&
  isArrB (objGet (objGet (sourcesGet sources "ceding_info") "scottish_widows_details" (.obj []))
    "additional_info" (.arr [])) &&
  isObjB (objGet (sourcesGet sources "ceding_info") "disadvantages" (.obj [])) &&
  isObjB (objGet (sourcesGet sources "ceding_info") "part3_transfer_details" (.obj [])) &&
  isObjB (objGet (sourcesGet sources "ceding_info") "product_comparison_scottish_widows"
    (.obj [])) &&
  isObjB (objGet (sourcesGet sources "illustration") "aviva_plan" (.obj []))

theorem mapM_ok_of_all {α β : Type} (f : α → Except String β) :
    ∀ l : List α, (∀ x ∈ l, ∃ y, f x = .ok y) → ∃ ys, l.mapM f = .ok ys
  | [], _ => ⟨[], rfl⟩
  | x :: xs, h => by
    obtain ⟨y, hy⟩ := h x (List.mem_cons_self x xs)
    obtain ⟨ys, hys⟩ := mapM_ok_of_all f xs (fun a ha => h a (List.mem_cons_of_mem _ ha))
    exact ⟨y :: ys, by
      rw [List.mapM_cons, hy, hys]
      rfl⟩

theorem pyIter_ok_arr {v : Json} (h : isArrB v = true) : pyIter v = .ok (arrElems v) := by
  cases v <;> simp_all [pyIter, arrElems, isArrB]

theorem pyIter_keys {v : Json} (h : keysOkB v = true) :
    ∃ keys, pyIter v = .ok keys ∧ ∀ k ∈ keys, hashableB k = true := by
  cases v with
  | arr ks =>
    refine ⟨ks, rfl, ?_⟩
    simpa [keysOkB, List.all_eq_true] using h
  | obj kvs =>
    refine ⟨kvs.map (fun kv : String × Json => Json.str kv.1), rfl, ?_⟩
    intro k hk
    obtain ⟨kv, -, rfl⟩ := List.mem_map.mp hk
    rfl
  | str s =>
    refine ⟨s.data.map (fun c => .str (String.mk [c])), rfl, ?_⟩
    intro k hk
    obtain ⟨c, -, rfl⟩ := List.mem_map.mp hk
    rfl
  | null => exact absurd h (by simp [keysOkB])
  | bool b => exact absurd h (by simp [keysOkB])
  | num n => exact absurd h (by simp [keysOkB])

theorem bulletKeys_ok_hashable (kvs : List (String × Json)) :
    ∀ keys : List Json, (∀ k ∈ keys, hashableB k = true) →
      ∃ bs, bulletKeys kvs keys = .ok bs
  | [], _ => ⟨[], rfl⟩
  | key :: rest, h => by
    have hrest := bulletKeys_ok_hashable kvs rest (fun k hk => h k (List.mem_cons_of_mem _ hk))
    obtain ⟨bs, hbs⟩ := hrest
    cases key with
    | arr ks => exact absurd (h _ (List.mem_cons_self _ _)) (by simp [hashableB])
    | obj ms => exact absurd (h _ (List.mem_cons_self _ _)) (by simp [hashableB])
    | str s =>
      cases hf : assocFind s kvs with
      | some v => exact ⟨.bullet v :: bs, by simp [bulletKeys, hf, hbs, exceptBind_ok,
          exceptPure_eq]⟩
      | none => exact ⟨bs, by simp [bulletKeys, hf, hbs]⟩
    | null => exact ⟨bs, by simp [bulletKeys, hbs]⟩
    | bool b => exact ⟨bs, by simp [bulletKeys, hbs]⟩
    | num n => exact ⟨bs, by simp [bulletKeys, hbs]⟩

theorem contentOk_facts {v : Json} (h : contentOkB v = true) :
    isArrB v = true ∧ ∀ x ∈ arrElems v, itemOkB x = true := by
  cases v <;> simp_all [contentOkB, isArrB, arrElems, List.all_eq_true]

theorem objListOk_facts {v : Json} (h : objListOkB v = true) :
    isArrB v = true ∧ ∀ x ∈ arrElems v, isObjB x = true := by
  cases v <;> simp_all [objListOkB, isArrB, arrElems, List.all_eq_true]

theorem eqStr_true_iff {v : Json} {t : String} : v.eqStr t = true ↔ v = .str t := by
  cases v <;> simp [Json.eqStr]

theorem add_pension_arrangements_table_ok (sources : Sources)
    (h0 : isObjB (sourcesGet sources "cfr") = true)
    (h1 : isObjB (sourcesGet sources "user_input") = true)
    (h2 : isObjB (sourcesGet sources "illustration") = true)
    (hpa : isObjB (objGet (sourcesGet sources "cfr") "pension_arrangements" (.obj [])) = true)
    (hsjp : isObjB (objGet (objGet (sourcesGet sources "cfr") "pension_arrangements" (.obj []))
      "sjp_retirement_account" (.obj [])) = true)
    (hsw : isObjB (objGet (objGet (sourcesGet sources "cfr") "pension_arrangements" (.obj []))
      "scottish_widows" (.obj [])) = true)
    (hav : isObjB (objGet (objGet (sourcesGet sources "cfr") "pension_arrangements" (.obj []))
      "aviva" (.obj [])) = true)
    (hpo : isObjB (objGet (sourcesGet sources "user_input") "part1_objectives" (.obj [])) = true)
    (hil : isObjB (objGet (sourcesGet sources "illustration") "aviva_plan" (.obj [])) = true) :
    ∃ t, add_pension_arrangements_table sources = .ok t := by
  unfold add_pension_arrangements_table
  simp only [pyDictGet_ok_objGet h0, pyDictGet_ok_objGet h1, pyDictGet_ok_objGet h2,
    pyDictGet_ok_objGet hpa, pyDictGet_ok_objGet hsjp, pyDictGet_ok_objGet hsw,
    pyDictGet_ok_objGet hav, pyDictGet_ok_objGet hpo, pyDictGet_ok_objGet hil,
    exceptBind_ok, exceptPure_eq]
  exact ⟨_, rfl⟩

theorem add_recommendation_table_ok (sources : Sources)
    (h0 : isObjB (sourcesGet sources "cfr") = true)
    (h1 : isObjB (sourcesGet sources "user_input") = true)
    (hp2c : isObjB (objGet (sourcesGet sources "cfr") "part2_recommendation" (.obj [])) = true)
    (hp2u : isObjB (objGet (sourcesGet sources "user_input") "part2_recommendation" (.obj []))
      = true) :
    ∃ t, add_recommendation_table sources = .ok t := by
  unfold add_recommendation_table
  simp only [pyDictGet_ok_objGet h0, pyDictGet_ok_objGet h1, pyDictGet_ok_objGet hp2c,
    pyDictGet_ok_objGet hp2u, exceptBind_ok, exceptPure_eq]
  exact ⟨_, rfl⟩

theorem add_employer_scheme_table_ok (sources : Sources)
    (h1 : isObjB (sourcesGet sources "user_input") = true)
    (hes : isObjB (objGet (sourcesGet sources "user_input") "employer_scheme" (.obj [])) = true) :
    ∃ t, add_employer_scheme_table sources = .ok t := by
  unfold add_employer_scheme_table
  simp only [pyDictGet_ok_objGet h1, pyDictGet_ok_objGet hes, exceptBind_ok, exceptPure_eq]
  exact ⟨_, rfl⟩

theorem add_transfer_impact_table_ok (sources : Sources)
    (h0 : isObjB (sourcesGet sources "cfr") = true)
    (hced : isObjB (sourcesGet sources "ceding_info") = true)
    (hp3i : isObjB (objGet (sourcesGet sources "cfr") "part3_impact" (.obj [])) = true)
    (hp3t : isObjB (objGet (sourcesGet sources "ceding_info") "part3_transfer_details" (.obj []))
      = true) :
    ∃ t, add_transfer_impact_table sources = .ok t := by
  unfold add_transfer_impact_table
  simp only [pyDictGet_ok_objGet h0, pyDictGet_ok_objGet hced, pyDictGet_ok_objGet hp3i,
    pyDictGet_ok_objGet hp3t, exceptBind_ok, exceptPure_eq]
  exact ⟨_, rfl⟩

theorem add_outperformance_table_ok (sources : Sources)
    (h0 : isObjB (sourcesGet sources "cfr") = true)
    (hcyc : isObjB (sourcesGet sources "cyc") = true)
    (hp3i : isObjB (objGet (sourcesGet sources "cfr") "part3_impact" (.obj [])) = true)
    (hot : isObjB (objGet (sourcesGet sources "cyc") "outperformance_table" (.obj [])) = true)
    (hotsw : isObjB (objGet (objGet (sourcesGet sources "cyc") "outperformance_table" (.obj []))
      "scottish_widows" (.obj [])) = true) :
    ∃ t, add_outperformance_table sources = .ok t := by
  unfold add_outperformance_table
  simp only [pyDictGet_ok_objGet h0, pyDictGet_ok_objGet hcyc, pyDictGet_ok_objGet hp3i,
    pyDictGet_ok_objGet hot, pyDictGet_ok_objGet hotsw, exceptBind_ok, exceptPure_eq]
  exact ⟨_, rfl⟩

theorem add_fund_selection_table_ok (sources : Sources)
    (h1 : isObjB (sourcesGet sources "user_input") = true)
    (hfs : isObjB (objGet (sourcesGet sources "user_input") "fund_selection" (.obj [])) = true)
    (hft : objListOkB (objGet (objGet (sourcesGet sources "user_input") "fund_selection"
      (.obj [])) "table" (.arr [])) = true) :
    ∃ t, add_fund_selection_table sources = .ok t := by
  obtain ⟨harr, hel⟩ := objListOk_facts hft
  obtain ⟨rows, hrows⟩ := mapM_ok_of_all fundRow
    (arrElems (objGet (objGet (sourcesGet sources "user_input") "fund_selection" (.obj []))
      "table" (.arr [])))
    (fun x hx => by
      have hobj := hel x hx
      exact ⟨_, by
        unfold fundRow
        simp only [pyDictGet_ok_objGet hobj, exceptBind_ok, exceptPure_eq]
        rfl⟩)
  unfold add_fund_selection_table
  simp only [pyDictGet_ok_objGet h1, pyDictGet_ok_objGet hfs, exceptBind_ok,
    pyIter_ok_arr harr, hrows, exceptPure_eq]
  exact ⟨_, rfl⟩

theorem add_product_comparison_table_ok (sources : Sources)
    (hcyc : isObjB (sourcesGet sources "cyc") = true)
    (h1 : isObjB (sourcesGet sources "user_input") = true)
    (hced : isObjB (sourcesGet sources "ceding_info") = true)
    (hpc : isObjB (objGet (sourcesGet sources "cyc") "product_comparison" (.obj [])) = true)
    (hpcs : isObjB (objGet (objGet (sourcesGet sources "cyc") "product_comparison" (.obj []))
      "sjp_retirement_account" (.obj [])) = true)
    (hpcu : isObjB (objGet (sourcesGet sources "user_input") "product_comparison" (.obj []))
      = true)
    (hpcsw : isObjB (objGet (sourcesGet sources "ceding_info")
      "product_comparison_scottish_widows" (.obj [])) = true) :
    ∃ t, add_product_comparison_table sources = .ok t := by
  unfold add_product_comparison_table
  simp only [pyDictGet_ok_objGet hcyc, pyDictGet_ok_objGet h1, pyDictGet_ok_objGet hced,
    pyDictGet_ok_objGet hpc, pyDictGet_ok_objGet hpcs, pyDictGet_ok_objGet hpcu,
    pyDictGet_ok_objGet hpcsw, exceptBind_ok, exceptPure_eq]
  exact ⟨_, rfl⟩

/-- Under the item shape, the dispatcher never raises: every branch —
paragraph, heading, bullet list over any fetched data, known or unknown
table id, unknown type — produces a node list. -/
theorem process_content_item_j_ok (sources : Sources) (item : Json)
    (hitem : itemOkB item = true)
    (hP : ∃ t, add_pension_arrangements_table sources = .ok t)
    (hR : ∃ t, add_recommendation_table sources = .ok t) :
    ∃ ns, process_content_item_j sources item = .ok ns := by
  cases item with
  | obj kvs =>
    show ∃ ns, process_content_item sources kvs = .ok ns
    unfold itemOkB at hitem
    rw [Bool.and_eq_true] at hitem
    obtain ⟨hsrcOk, hkeysOk⟩ := hitem
    unfold process_content_item
    by_cases h1 : (dictGet kvs "type" (.str "paragraph")).eqStr "paragraph" = true
    · rw [if_pos h1]
      exact ⟨_, rfl⟩
    · rw [if_neg h1]
      by_cases h2 : (dictGet kvs "type" (.str "paragraph")).eqStr "heading2" = true
      · rw [if_pos h2]
        exact ⟨_, rfl⟩
      · rw [if_neg h2]
        by_cases h3 : (dictGet kvs "type" (.str "paragraph")).eqStr "bullet_list" = true
        · rw [if_pos h3]
          by_cases hst : (dictGet kvs "source" (.str "")).truthy = true
          · rw [hst] at hsrcOk
            simp only [Bool.not_true, Bool.false_or] at hsrcOk
            have hsrcStr : ∃ s, dictGet kvs "source" (.str "") = .str s := by
              cases hdg : dictGet kvs "source" (.str "") with
              | str s => exact ⟨s, rfl⟩
              | null => rw [hdg] at hsrcOk; simp at hsrcOk
              | bool b => rw [hdg] at hsrcOk; simp at hsrcOk
              | num n => rw [hdg] at hsrcOk; simp at hsrcOk
              | arr xs => rw [hdg] at hsrcOk; simp at hsrcOk
              | obj ms => rw [hdg] at hsrcOk; simp at hsrcOk
            obtain ⟨s, hdg⟩ := hsrcStr
            rw [if_pos (hdg ▸ hst), hdg]
            rw [show jStrOrRaise (Json.str s) = .ok s from rfl, exceptBind_ok]
            cases hget : get sources s (.str "") with
            | arr xs => exact ⟨_, rfl⟩
            | obj kvs2 =>
              show ∃ ns,
                (pyIter (dictGet kvs "keys"
                    (.arr (kvs2.map (fun kv : String × Json => Json.str kv.1)))) >>= fun keys =>
                  bulletKeys kvs2 keys >>= fun bullets =>
                  pure (DocNode.emptyPara :: bullets)) = Except.ok ns
              cases hak : assocFind "keys" kvs with
              | none =>
                have hkJ : dictGet kvs "keys"
                    (.arr (kvs2.map (fun kv : String × Json => Json.str kv.1))) =
                    .arr (kvs2.map (fun kv : String × Json => Json.str kv.1)) := by
                  unfold dictGet
                  rw [hak]
                rw [hkJ, show pyIter (Json.arr (kvs2.map
                  (fun kv : String × Json => Json.str kv.1))) =
                  .ok (kvs2.map (fun kv : String × Json => Json.str kv.1)) from rfl,
                  exceptBind_ok]
                obtain ⟨bs, hbs⟩ := bulletKeys_ok_hashable kvs2
                  (kvs2.map (fun kv : String × Json => Json.str kv.1))
                  (by
                    intro k hk
                    obtain ⟨kv, -, rfl⟩ := List.mem_map.mp hk
                    rfl)
                rw [hbs, exceptBind_ok]
                exact ⟨_, rfl⟩
              | some k =>
                have hkJ : dictGet kvs "keys"
                    (.arr (kvs2.map (fun kv : String × Json => Json.str kv.1))) = k := by
                  unfold dictGet
                  rw [hak]
                have hko : keysOkB k = true := by
                  rw [hak] at hkeysOk
                  exact hkeysOk
                obtain ⟨keys, hpi, hh⟩ := pyIter_keys hko
                obtain ⟨bs, hbs⟩ := bulletKeys_ok_hashable kvs2 keys hh
                rw [hkJ, hpi, exceptBind_ok, hbs, exceptBind_ok]
                exact ⟨_, rfl⟩
            | null => exact ⟨_, rfl⟩
            | bool b => exact ⟨_, rfl⟩
            | num n => exact ⟨_, rfl⟩
            | str t => exact ⟨_, rfl⟩
          · rw [if_neg hst]
            exact ⟨_, rfl⟩
        · rw [if_neg h3]
          by_cases h4 : (dictGet kvs "type" (.str "paragraph")).eqStr "table" = true
          · rw [if_pos h4]
            by_cases h5 : (dictGet kvs "table_id" (.str "")).eqStr "pension_arrangements" = true
            · rw [if_pos h5]
              obtain ⟨t, ht⟩ := hP
              rw [ht, exceptBind_ok]
              exact ⟨_, rfl⟩
            · rw [if_neg h5]
              by_cases h6 : (dictGet kvs "table_id" (.str "")).eqStr "recommendation_table" = true
              · rw [if_pos h6]
                obtain ⟨t, ht⟩ := hR
                rw [ht, exceptBind_ok]
                exact ⟨_, rfl⟩
              · rw [if_neg h6]
                exact ⟨_, rfl⟩
          · rw [if_neg h4]
            exact ⟨_, rfl⟩
  | null => exact absurd hitem (by simp [itemOkB])
  | bool b => exact absurd hitem (by simp [itemOkB])
  | num n => exact absurd hitem (by simp [itemOkB])
  | str s => exact absurd hitem (by simp [itemOkB])
  | arr xs => exact absurd hitem (by simp [itemOkB])

theorem setup_document_ok (tpl : Json)
    (t1 : isObjB tpl = true)
    (t2 : isObjB (objGet tpl "pages" (.obj [])) = true)
    (t3 : isObjB (objGet (objGet tpl "pages" (.obj [])) "letter" (.obj [])) = true)
    (t4 : isObjB (objGet (objGet (objGet tpl "pages" (.obj [])) "letter" (.obj []))
      "margins" (.obj [])) = true)
    (t5 : isObjB (objGet tpl "styles" DEFAULT_STYLES) = true)
    (t6 : isObjB (objGet (objGet tpl "styles" DEFAULT_STYLES) "document" (.obj [])) = true) :
    ∃ ns, setup_document tpl = .ok ns := by
  unfold setup_document
  simp only [pyDictGet_ok_objGet t1, pyDictGet_ok_objGet t2, pyDictGet_ok_objGet t3,
    pyDictGet_ok_objGet t4, pyDictGet_ok_objGet t5, pyDictGet_ok_objGet t6,
    exceptBind_ok, exceptPure_eq]
  exact ⟨_, rfl⟩

theorem generate_letter_ok (tpl : Json) (sources : Sources)
    (t1 : isObjB tpl = true)
    (t7 : isObjB (objGet tpl "template" (.obj [])) = true)
    (t8 : isObjB (objGet (objGet tpl "template" (.obj [])) "letter" (.obj [])) = true)
    (t9 : isArrB (objGet (objGet tpl "template" (.obj [])) "intro_paragraphs" (.arr [])) = true)
    (t10 : isArrB (objGet (objGet tpl "template" (.obj [])) "parts_bullets" (.arr [])) = true)
    (t11 : isObjB (objGet (objGet tpl "template" (.obj [])) "other_documentation" (.obj []))
      = true)
    (t12 : isArrB (objGet (objGet (objGet tpl "template" (.obj [])) "other_documentation"
      (.obj [])) "bullets" (.arr [])) = true)
    (t13 : isObjB (objGet (objGet tpl "template" (.obj [])) "ongoing_advice" (.obj [])) = true)
    (t14 : isArrB (objGet (objGet (objGet tpl "template" (.obj [])) "ongoing_advice" (.obj []))
      "paragraphs" (.arr [])) = true)
    (t15 : isObjB (objGet (objGet tpl "template" (.obj [])) "next_steps" (.obj [])) = true)
    (t16 : isArrB (objGet (objGet (objGet tpl "template" (.obj [])) "next_steps" (.obj []))
      "paragraphs" (.arr [])) = true)
    (s1 : isObjB (sourcesGet sources "cfr") = true)
    (s6 : isObjB (objGet (sourcesGet sources "cfr") "recipient" (.obj [])) = true) :
    ∃ ns, generate_letter tpl sources = .ok ns := by
  unfold generate_letter
  simp only [pyDictGet_ok_objGet t1, pyDictGet_ok_objGet t7, pyDictGet_ok_objGet t8,
    pyDictGet_ok_objGet t11, pyDictGet_ok_objGet t13, pyDictGet_ok_objGet t15,
    pyDictGet_ok_objGet s1, pyDictGet_ok_objGet s6,
    pyIter_ok_arr t9, pyIter_ok_arr t10, pyIter_ok_arr t12, pyIter_ok_arr t14,
    pyIter_ok_arr t16, exceptBind_ok, exceptPure_eq]
  exact ⟨_, rfl⟩

theorem generate_scottish_widows_details_ok (sources : Sources)
    (s4 : isObjB (sourcesGet sources "ceding_info") = true)
    (s26 : isObjB (objGet (sourcesGet sources "ceding_info") "scottish_widows_details"
      (.obj [])) = true)
    (s27 : objListOkB (objGet (objGet (sourcesGet sources "ceding_info")
      "scottish_widows_details" (.obj [])) "investments" (.arr [])) = true)
    (s28 : isObjB (objGet (objGet (sourcesGet sources "ceding_info") "scottish_widows_details"
      (.obj [])) "charges" (.obj [])) = true)
    (s29 : isArrB (objGet (objGet (sourcesGet sources "ceding_info") "scottish_widows_details"
      (.obj [])) "additional_info" (.arr [])) = true) :
    ∃ ns, generate_scottish_widows_details sources = .ok ns := by
  obtain ⟨harr, hel⟩ := objListOk_facts s27
  obtain ⟨rows, hrows⟩ := mapM_ok_of_all invRow
    (arrElems (objGet (objGet (sourcesGet sources "ceding_info") "scottish_widows_details"
      (.obj [])) "investments" (.arr [])))
    (fun x hx => ⟨_, by
      unfold invRow
      simp only [pyDictGet_ok_objGet (hel x hx), exceptBind_ok, exceptPure_eq]
      rfl⟩)
  unfold generate_scottish_widows_details
  simp only [pyDictGet_ok_objGet s4, pyDictGet_ok_objGet s26, pyDictGet_ok_objGet s28,
    pyIter_ok_arr harr, pyIter_ok_arr s29, hrows, exceptBind_ok, exceptPure_eq]
  exact ⟨_, rfl⟩

theorem generate_part1_ok (tpl : Json) (sources : Sources)
    (t1 : isObjB tpl = true)
    (t17 : isObjB (objGet tpl "part1" (.obj [])) = true)
    (t18 : contentOkB (objGet (objGet tpl "part1" (.obj [])) "content" (.arr [])) = true)
    (hP : ∃ t, add_pension_arrangements_table sources = .ok t)
    (hR : ∃ t, add_recommendation_table sources = .ok t)
    (hsw : ∃ ns, generate_scottish_widows_details sources = .ok ns) :
    ∃ ns, generate_part1 tpl sources = .ok ns := by
  obtain ⟨harr, hitems⟩ := contentOk_facts t18
  obtain ⟨nss, hnss⟩ := mapM_ok_of_all (process_content_item_j sources)
    (arrElems (objGet (objGet tpl "part1" (.obj [])) "content" (.arr [])))
    (fun x hx => process_content_item_j_ok sources x (hitems x hx) hP hR)
  obtain ⟨sw, hsw'⟩ := hsw
  unfold generate_part1
  simp only [pyDictGet_ok_objGet t1, pyDictGet_ok_objGet t17, pyIter_ok_arr harr, hnss, hsw',
    exceptBind_ok, exceptPure_eq]
  exact ⟨_, rfl⟩

theorem generate_part2_ok (tpl : Json) (sources : Sources)
    (t1 : isObjB tpl = true)
    (t19 : isObjB (objGet tpl "part2" (.obj [])) = true)
    (t20 : contentOkB (objGet (objGet tpl "part2" (.obj [])) "content" (.arr [])) = true)
    (s2 : isObjB (sourcesGet sources "cyc") = true)
    (s5 : isObjB (sourcesGet sources "user_input") = true)
    (s15 : isObjB (objGet (sourcesGet sources "user_input") "employer_scheme" (.obj [])) = true)
    (s19 : isObjB (objGet (sourcesGet sources "cyc") "employer_scheme_comparison" (.obj []))
      = true)
    (hP : ∃ t, add_pension_arrangements_table sources = .ok t)
    (hR : ∃ t, add_recommendation_table sources = .ok t)
    (hE : ∃ t, add_employer_scheme_table sources = .ok t) :
    ∃ ns, generate_part2 tpl sources = .ok ns := by
  obtain ⟨harr, hitems⟩ := contentOk_facts t20
  obtain ⟨nss, hnss⟩ := mapM_ok_of_all (process_content_item_j sources)
    (arrElems (objGet (objGet tpl "part2" (.obj [])) "content" (.arr [])))
    (fun x hx => process_content_item_j_ok sources x (hitems x hx) hP hR)
  obtain ⟨te, hte⟩ := hE
  unfold generate_part2
  simp only [pyDictGet_ok_objGet t1, pyDictGet_ok_objGet t19, pyIter_ok_arr harr, hnss,
    pyDictGet_ok_objGet s2, pyDictGet_ok_objGet s5, pyDictGet_ok_objGet s15,
    pyDictGet_ok_objGet s19, hte, exceptBind_ok, exceptPure_eq]
  exact ⟨_, rfl⟩

theorem generate_part3_ok (tpl : Json) (sources : Sources)
    (t1 : isObjB tpl = true)
    (t21 : isObjB (objGet tpl "part3" (.obj [])) = true)
    (s2 : isObjB (sourcesGet sources "cyc") = true)
    (s4 : isObjB (sourcesGet sources "ceding_info") = true)
    (s20 : isObjB (objGet (sourcesGet sources "cyc") "disadvantages" (.obj [])) = true)
    (s21 : isObjB (objGet (sourcesGet sources "cyc") "special_terms" (.obj [])) = true)
    (s30 : isObjB (objGet (sourcesGet sources "ceding_info") "disadvantages" (.obj [])) = true)
    (hT : ∃ t, add_transfer_impact_table sources = .ok t)
    (hO : ∃ t, add_outperformance_table sources = .ok t) :
    ∃ ns, generate_part3 tpl sources = .ok ns := by
  obtain ⟨tt, htt⟩ := hT
  obtain ⟨ot, hot⟩ := hO
  unfold generate_part3
  simp only [pyDictGet_ok_objGet t1, pyDictGet_ok_objGet t21, pyDictGet_ok_objGet s2,
    pyDictGet_ok_objGet s4, pyDictGet_ok_objGet s20, pyDictGet_ok_objGet s21,
    pyDictGet_ok_objGet s30, htt, hot, exceptBind_ok, exceptPure_eq]
  exact ⟨_, rfl⟩

theorem generate_part4_ok (tpl : Json) (sources : Sources)
    (t1 : isObjB tpl = true)
    (t22 : isObjB (objGet tpl "part4" (.obj [])) = true)
    (hF : ∃ t, add_fund_selection_table sources = .ok t) :
    ∃ ns, generate_part4 tpl sources = .ok ns := by
  obtain ⟨ft, hft⟩ := hF
  unfold generate_part4
  simp only [pyDictGet_ok_objGet t1, pyDictGet_ok_objGet t22, hft, exceptBind_ok, exceptPure_eq]
  exact ⟨_, rfl⟩

theorem generate_appendix_i_ok (sources : Sources) :
    ∃ ns, generate_appendix_i sources = .ok ns :=
  ⟨_, rfl⟩

theorem generate_appendix_ok (tpl : Json) (sources : Sources)
    (t1 : isObjB tpl = true)
    (t23 : isObjB (objGet tpl "appendix" (.obj [])) = true)
    (hC : ∃ t, add_product_comparison_table sources = .ok t) :
    ∃ ns, generate_appendix tpl sources = .ok ns := by
  obtain ⟨ct, hct⟩ := hC
  unfold generate_appendix
  simp only [pyDictGet_ok_objGet t1, pyDictGet_ok_objGet t23, hct, exceptBind_ok, exceptPure_eq]
  exact ⟨_, rfl⟩

/-- Claim C8. The generation walk never raises on missing data: for every
combination of loaded source contents and template in which keys, entries or
whole sources may be absent (each value actually present being of the type
the walk reads it at — `templateOkB`/`sourcesOkB`, both preserved by
deleting anything and satisfied by the all-empty data set), every lookup
degrades to a default and all phases from letter through the appendices
complete, producing a node list. -/
theorem c8_generation_never_raises (tpl : Json) (sources : Sources)
    (htpl : templateOkB tpl = true) (hsrc : sourcesOkB sources = true) :
    ∃ nodes, generate tpl sources = .ok nodes := by
  simp only [templateOkB, sectionOkB, Bool.and_eq_true, and_assoc] at htpl
  obtain ⟨t1, t2, t3, t4, t5, t6, t7, t8, t9, t10, t11, t12, t13, t14, t15, t16, t17, t18,
    t19, t20, t21, t22, t23⟩ := htpl
  simp only [sourcesOkB, Bool.and_eq_true, and_assoc] at hsrc
  obtain ⟨s1, s2, s3, s4, s5, s6, s7, s8, s9, s10, s11, s12, s13, s14, s15, s16, s17, s18,
    s19, s20, s21, s22, s23, s24, s25, s26, s27, s28, s29, s30, s31, s32, s33⟩ := hsrc
  have hP := add_pension_arrangements_table_ok sources s1 s5 s3 s7 s8 s9 s10 s13 s33
  have hR := add_recommendation_table_ok sources s1 s5 s11 s14
  have hE := add_employer_scheme_table_ok sources s5 s15
  have hT := add_transfer_impact_table_ok sources s1 s4 s12 s31
  have hO := add_outperformance_table_ok sources s1 s2 s12 s24 s25
  have hF := add_fund_selection_table_ok sources s5 s17 s18
  have hC := add_product_comparison_table_ok sources s2 s5 s4 s22 s23 s16 s32
  obtain ⟨n0, h0⟩ := setup_document_ok tpl t1 t2 t3 t4 t5 t6
  obtain ⟨n1, h1⟩ := generate_letter_ok tpl sources t1 t7 t8 t9 t10 t11 t12 t13 t14 t15 t16 s1 s6
  obtain ⟨n2, h2⟩ := generate_part1_ok tpl sources t1 t17 t18 hP hR
    (generate_scottish_widows_details_ok sources s4 s26 s27 s28 s29)
  obtain ⟨n3, h3⟩ := generate_part2_ok tpl sources t1 t19 t20 s2 s5 s15 s19 hP hR hE
  obtain ⟨n4, h4⟩ := generate_part3_ok tpl sources t1 t21 s2 s4 s20 s21 s30 hT hO
  obtain ⟨n5, h5⟩ := generate_part4_ok tpl sources t1 t22 hF
  obtain ⟨n6, h6⟩ := generate_appendix_i_ok sources
  obtain ⟨n7, h7⟩ := generate_appendix_ok tpl sources t1 t23 hC
  unfold generate
  simp only [h0, h1, h2, h3, h4, h5, h6, h7, exceptBind_ok, exceptPure_eq]
  exact ⟨_, rfl⟩

/-- Witness for C8: the empty template and the all-empty sources satisfy
both shape predicates, and the walk completes. -/
theorem c8_generation_never_raises_witness :
    ∃ nodes,
      generate (.obj []) [("cfr", .obj []), ("cyc", .obj []), ("illustration", .obj []),
        ("ceding_info", .obj []), ("user_input", .obj [])] = .ok nodes :=
  c8_generation_never_raises (.obj [])
    [("cfr", .obj []), ("cyc", .obj []), ("illustration", .obj []),
     ("ceding_info", .obj []), ("user_input", .obj [])]
    (by decide) (by decide)

end DocGen
